import Mathlib

/-!
Verification of the LXD virtual-machine lifecycle controller and the unix
hotplug device subsystem against their natural-language specification.

The Go source is shallowly embedded: Go string-keyed maps become association
lists with lookup defaulting to the empty string (the zero value a Go map
lookup yields for a missing key), fallible external collaborators (database,
QMP monitor socket, storage pool, device drivers) become explicit environment
records of outcomes, and the state mutated by a method becomes explicit state
passing.  Host-visible side effects are collected into explicit effect traces.
-/

namespace LxdVm

instance {ε α : Type} [DecidableEq ε] [DecidableEq α] : DecidableEq (Except ε α) := fun a b =>
  match a, b with
  | .error e, .error e' => decidable_of_iff (e = e') (by simp)
  | .ok x, .ok y => decidable_of_iff (x = y) (by simp)
  | .error _, .ok _ => isFalse (by simp)
  | .ok _, .error _ => isFalse (by simp)

/-! ## Go maps as association lists

A `Config` models a Go `map[string]string`.  `cfgGet` is Go map indexing
(missing key yields `""`), `cfgMem` the comma-ok lookup form, `cfgSet`
assignment and `cfgDel` the builtin `delete`. -/

abbrev Config := List (String × String)

def cfgGet (c : Config) (k : String) : String :=
  match c.find? (fun p => p.1 == k) with
  | some p => p.2
  | none => ""

def cfgMem (c : Config) (k : String) : Bool :=
  c.any (fun p => p.1 == k)

def cfgDel (c : Config) (k : String) : Config :=
  c.filter (fun p => p.1 != k)

def cfgSet (c : Config) (k v : String) : Config :=
  cfgDel c k ++ [(k, v)]

def cfgKeys (c : Config) : List String := c.map Prod.fst

/-- Kernel-computable equivalent of strings.HasPrefix from the Go source
(Lean's own String.startsWith does not reduce in the kernel). -/
def strStarts (s p : String) : Bool := p.data.isPrefixOf s.data

/-- Kernel-computable equivalent of strings.TrimPrefix from the Go source. -/
def strTrimPref (s p : String) : String :=
  if strStarts s p then String.mk (s.data.drop p.data.length) else s

/-! ## Devices

A `Devices` value models `deviceConfig.Devices`, a Go map from device name to
device config map.  `devSorted` models `Devices.Sorted()`: the spec calls it a
deterministic sort by name (parent mounts before children); it is embedded as
an insertion sort on the device name. -/

abbrev Devices := List (String × Config)

def devGet (ds : Devices) (n : String) : Config :=
  match ds.find? (fun p => p.1 == n) with
  | some p => p.2
  | none => []

def devMem (ds : Devices) (n : String) : Bool :=
  ds.any (fun p => p.1 == n)

def charsLe : List Char → List Char → Bool
  | [], _ => true
  | _ :: _, [] => false
  | a :: as, b :: bs =>
      if a.toNat < b.toNat then true
      else if b.toNat < a.toNat then false
      else charsLe as bs

def strLe (a b : String) : Bool := charsLe a.data b.data

def devInsertSorted (d : String × Config) : Devices → Devices
  | [] => [d]
  | e :: rest => if strLe d.1 e.1 then d :: e :: rest else e :: devInsertSorted d rest

def devSorted (ds : Devices) : Devices := ds.foldr devInsertSorted []

/-! ## The vmQemu instance state

`VMState` gathers the mutable fields of the `vmQemu` struct that `Update`,
`VolatileSet` and `deviceResetVolatile` touch, together with the persisted
(database) copy of the instance record that the database collaborator holds.
-/

structure VMState where
  description : String
  architecture : Int
  ephemeral : Bool
  snapshot : Bool
  localConfig : Config
  localDevices : Devices
  expandedConfig : Config
  expandedDevices : Devices
  profiles : List String
  expiryDate : Int
  dbConfig : Config
  dbDevices : Devices
  dbProfiles : List String
  dbDescription : String
  dbArchitecture : Int
  dbEphemeral : Bool
  dbExpiryDate : Int
  deriving DecidableEq

/-! ## Status derivation (vmQemu.statusCode, State, IsRunning)

`MonitorEnv` records the outcomes of the external QMP monitor collaborator
for one status query: socket creation, the capabilities handshake (Connect),
the query-status command, JSON decoding, and the decoded status string. -/

structure MonitorEnv where
  socketOk : Bool
  connectOk : Bool
  runOk : Bool
  decodeOk : Bool
  status : String
  deriving DecidableEq

inductive StatusCode
  | running
  | stopped
  | error
  deriving DecidableEq

/-- Embeds vmQemu.statusCode (source part_000 lines 2783-2821) together with
whether the monitor connection was disconnected again by the deferred
Disconnect (true on every path executed after a successful Connect). -/
def statusCodeRun (env : MonitorEnv) : StatusCode × Bool :=
  if !env.socketOk then (.stopped, false)
  else if !env.connectOk then (.error, false)
  else if !env.runOk then (.error, true)
  else if !env.decodeOk then (.error, true)
  else if env.status == "running" then (.running, true)
  else (.stopped, true)

def statusCode (env : MonitorEnv) : StatusCode := (statusCodeRun env).1

/-- Modelled from the spec: the upper-cased state names produced by
strings.ToUpper(api.StatusCode.String()) for the codes statusCode yields
(the spec lists the states Stopped, Running, Broken, Error). -/
def stateName : StatusCode → String
  | .running => "RUNNING"
  | .stopped => "STOPPED"
  | .error => "ERROR"

/-- Embeds vmQemu.State (source part_000 lines 2823-2825). -/
def State (env : MonitorEnv) : String := stateName (statusCode env)

/-- Embeds vmQemu.IsRunning (source part_000 lines 2665-2668). -/
def IsRunning (env : MonitorEnv) : Bool :=
  State env != "BROKEN" && State env != "STOPPED"

/-! ## Host effect traces for Start, Stop and Shutdown -/

inductive HostEffect
  | loadKernelModule (name : String)
  | sendPowerdown
  | sendQuit
  | cleanupDevices
  | removePidFile
  | removeMonitorSocket
  | unmountConfigVolume
  deriving DecidableEq

/-- Outcome of a lifecycle call: an error, a nil return (`completed`), the
timeout error of Shutdown (`timedOut`), an unbounded block (`blocked`), or
continuation into the parts of the call beyond the embedded region
(`proceeded`).  Every constructor carries the host effects executed first. -/
inductive CallOutcome
  | errored (msg : String) (eff : List HostEffect)
  | completed (eff : List HostEffect)
  | timedOut (eff : List HostEffect)
  | blocked (eff : List HostEffect)
  | proceeded (eff : List HostEffect)
  deriving DecidableEq

structure StartEnv where
  monitor : MonitorEnv
  moduleAlreadyLoaded : Bool
  moduleLoadOk : Bool
  deriving DecidableEq

/-- Embeds the head of vmQemu.Start (source part_000 lines 472-481): the
util.LoadModule("vhost_vsock") call precedes the running-state check.
LoadModule is modelled from the spec ("Ensures the required kernel module is
loaded"): it modifies host state exactly when the module was absent, and the
modprobe can then fail.  The remainder of Start past the embedded region is
`proceeded`. -/
def Start (env : StartEnv) : CallOutcome :=
  if env.moduleAlreadyLoaded then
    if IsRunning env.monitor then .errored "The instance is already running" []
    else .proceeded []
  else if !env.moduleLoadOk then .errored "Failed to load module vhost_vsock" []
  else if IsRunning env.monitor then
    .errored "The instance is already running" [.loadKernelModule "vhost_vsock"]
  else .proceeded [.loadKernelModule "vhost_vsock"]

structure StopEnv where
  monitor : MonitorEnv
  socketOk : Bool
  connectOk : Bool
  quitOk : Bool
  pidReadOk : Bool
  pidValue : Int
  processExits : Bool
  deriving DecidableEq

/-- Embeds vmQemu.Stop (source part_000 lines 1337-1392).  The quit command
is recorded as an effect once monitor.Run succeeds; the process-exit poll has
no timeout, so a process that never exits blocks the call. -/
def Stop (env : StopEnv) (stateful : Bool) : CallOutcome :=
  if stateful then .errored "Stateful stop is not supported for VMs at this time" []
  else if !(IsRunning env.monitor) then .errored "Instance is not running" []
  else if !env.socketOk then .errored "failed to create monitor socket" []
  else if !env.connectOk then .errored "failed to connect to monitor" []
  else if !env.quitOk then .errored "quit command failed" []
  else if !env.pidReadOk then .errored "failed to read pid file" [.sendQuit]
  else if env.pidValue < 0 then .completed [.sendQuit]
  else if env.processExits then
    .completed [.sendQuit, .cleanupDevices, .removePidFile, .removeMonitorSocket,
      .unmountConfigVolume]
  else .blocked [.sendQuit]

structure ShutdownEnv where
  monitor : MonitorEnv
  socketOk : Bool
  connectOk : Bool
  powerdownOk : Bool
  stopsBeforeTimeout : Bool
  eventuallyStops : Bool
  deriving DecidableEq

/-- Embeds vmQemu.Shutdown (source part_000 lines 405-462).  The 500ms poll
loop is abstracted into `stopsBeforeTimeout` (with a positive timeout, the
poll observes the instance not running before the timeout fires) and
`eventuallyStops` (without a timeout, the poll eventually observes it).  In
the source, a successful graceful shutdown under a positive timeout returns
nil from inside the select statement, before the cleanup block; only the
no-timeout path falls through to the cleanup block. -/
def Shutdown (env : ShutdownEnv) (timeoutMs : Int) : CallOutcome :=
  if !(IsRunning env.monitor) then .errored "The instance is already stopped" []
  else if !env.socketOk then .errored "failed to create monitor socket" []
  else if !env.connectOk then .errored "failed to connect to monitor" []
  else if !env.powerdownOk then .errored "powerdown command failed" []
  else if timeoutMs > 0 then
    if env.stopsBeforeTimeout then .completed [.sendPowerdown]
    else .timedOut [.sendPowerdown]
  else if env.eventuallyStops then
    .completed [.sendPowerdown, .cleanupDevices, .removePidFile, .removeMonitorSocket,
      .unmountConfigVolume]
  else .blocked [.sendPowerdown]

/-! ## VolatileSet and deviceResetVolatile -/

/-- One iteration of the local-application loop of VolatileSet (source
part_000 lines 2136-2145): an empty value deletes the key, any other value
sets it.  The database ContainerConfigUpdate / InstanceSnapshotConfigUpdate
collaborators are modelled from the spec with the same semantics (setting a
key to empty deletes it from persistence). -/
def cfgApplyChange (c : Config) (kv : String × String) : Config :=
  if kv.2 == "" then cfgDel c kv.1 else cfgSet c kv.1 kv.2

def cfgApplyChanges (c : Config) (changes : Config) : Config :=
  changes.foldl cfgApplyChange c

/-- Embeds vmQemu.VolatileSet (source part_000 lines 2112-2148).  `dbOk` is
the outcome of the database transaction; on any error the state is returned
unchanged (the transaction is atomic and the local loop is not reached). -/
def VolatileSet (dbOk : Bool) (st : VMState) (changes : Config) : VMState × Option String :=
  if changes.any (fun kv => !(strStarts kv.1 "volatile.")) then
    (st, some "Only volatile keys can be modified with VolatileSet")
  else if !dbOk then
    (st, some "Failed to volatile config")
  else
    ({ st with
        dbConfig := cfgApplyChanges st.dbConfig changes,
        expandedConfig := cfgApplyChanges st.expandedConfig changes,
        localConfig := cfgApplyChanges st.localConfig changes }, none)

/-- Embeds vmQemu.deviceResetVolatile (source part_000 lines 1819-1853). -/
def deviceResetVolatile (dbOk : Bool) (st : VMState) (devName : String)
    (oldConfig newConfig : Config) : VMState × Option String :=
  let volPfx := "volatile." ++ devName ++ "."
  if cfgGet newConfig "type" != cfgGet oldConfig "type" ||
      cfgGet newConfig "nictype" != cfgGet oldConfig "nictype" then
    VolatileSet dbOk st
      ((st.localConfig.filter (fun kv => strStarts kv.1 volPfx)).map (fun kv => (kv.1, "")))
  else
    VolatileSet dbOk st
      ((st.localConfig.filter (fun kv =>
          strStarts kv.1 volPfx && cfgMem newConfig (strTrimPref kv.1 volPfx))).map
        (fun kv => (kv.1, "")))

/-! ## The device diff (deviceConfig.Devices.Update) -/

def configDiffFields (a b : Config) : List String :=
  ((cfgKeys a ++ cfgKeys b).filter (fun k => cfgGet a k != cfgGet b k)).dedup

structure DevDiff where
  removed : Devices
  added : Devices
  updated : Devices
  changedFields : List String
  deriving DecidableEq

def devNameList (old new : Devices) : List String :=
  (old.map Prod.fst ++ new.map Prod.fst).dedup

/-- Modelled from the spec: the changed-fields component of the device diff
(spec 4.1: diff(old, new) returns (removed, added, updated, changedFields)),
taken as the union of the differing fields over all device names. -/
def devicesChangedFields (old new : Devices) : List String :=
  ((devNameList old new).map (fun n => configDiffFields (devGet old n) (devGet new n))).flatten.dedup

/-- Modelled from the spec: deviceConfig.Devices.Update (spec 4.1 diff): set
comparison by name; a same-name pair whose differing fields are a subset of
the fields the exclude callback declares hot-updatable is "updated",
otherwise it is split into a removal plus an addition. -/
def devicesUpdate (old new : Devices) (exclude : Config → Config → List String) : DevDiff :=
  let removed := old.filter (fun p =>
    if devMem new p.1 then
      let d := configDiffFields p.2 (devGet new p.1)
      !d.isEmpty && !(d.all (fun f => (exclude p.2 (devGet new p.1)).contains f))
    else true)
  let added := new.filter (fun p =>
    if devMem old p.1 then
      let d := configDiffFields (devGet old p.1) p.2
      !d.isEmpty && !(d.all (fun f => (exclude (devGet old p.1) p.2).contains f))
    else true)
  let updated := new.filter (fun p =>
    devMem old p.1 &&
      (let d := configDiffFields (devGet old p.1) p.2
       !d.isEmpty && d.all (fun f => (exclude (devGet old p.1) p.2).contains f)))
  ⟨removed, added, updated, devicesChangedFields old new⟩

/-! ## Update (vmQemu.Update) -/

structure ProfileData where
  config : Config
  devices : Devices

def cfgOverlay (base over : Config) : Config :=
  over.foldl (fun a kv => cfgSet a kv.1 kv.2) base

def devSet (ds : Devices) (n : String) (c : Config) : Devices :=
  ds.filter (fun p => p.1 != n) ++ [(n, c)]

def devOverlay (base over : Devices) : Devices :=
  over.foldl (fun a d => devSet a d.1 d.2) base

/-- Modelled from the spec: db.ProfilesExpandConfig — expanded config is the
profile-level settings merged in order with the instance-local settings
taking precedence (spec glossary). -/
def profilesExpandConfig (ps : List ProfileData) (lcl : Config) : Config :=
  cfgOverlay (ps.foldl (fun acc p => cfgOverlay acc p.config) []) lcl

/-- Modelled from the spec: db.ProfilesExpandDevices — a local device of the
same name overrides the profile-provided device wholesale. -/
def profilesExpandDevices (ps : List ProfileData) (lcl : Devices) : Devices :=
  devOverlay (ps.foldl (fun acc p => devOverlay acc p.devices) []) lcl

inductive UpdateErr
  | updateWhilstRunning
  | invalidConfig
  | invalidDevices
  | profilesFetchFailed
  | profileMissing
  | duplicateProfile
  | invalidArchitecture
  | reservedKeyChanged
  | expandFailed
  | invalidExpandedConfig
  | invalidExpandedDevices
  | deviceVolatileReset
  | deviceUpdateFailed (name : String)
  | maasFailed
  | nvramFailed
  | dbCommitFailed
  | backupWriteFailed
  deriving DecidableEq

structure InstanceArgs where
  description : String
  architecture : Int
  ephemeral : Bool
  config : Config
  devices : Devices
  profiles : List String
  expiryDate : Int
  deriving DecidableEq

/-- Environment of outcomes of the external collaborators Update consults:
validators, the cluster profile queries, the device package (device.New and
CanHotPlug for the diff callback, driver Update calls), the database
transactions, MAAS, the NVRAM file copy and the backup file write. -/
structure UpdateEnv where
  monitor : MonitorEnv
  validConfig : Bool
  validDevices : Bool
  clusterProfiles : Option (List String)
  archValid : Bool
  profileData : Option (List ProfileData)
  validExpandedConfig : Bool
  validExpandedDevices : Bool
  deviceNewOk : Config → Bool
  hotUpdateFields : Config → List String
  volatileDbOk : Bool
  deviceUpdateOk : String → Bool
  maasOk : Bool
  nvramCopyOk : Bool
  dbCommitOk : Bool
  backupWriteOk : Bool

/-- Embeds the exclude-fields callback passed to Devices.Update by
vmQemu.Update (source part_000 lines 1610-1626). -/
def updateExcludeFields (env : UpdateEnv) (oldD newD : Config) : List String :=
  if cfgGet oldD "type" != cfgGet newD "type" ||
      cfgGet oldD "nictype" != cfgGet newD "nictype" then []
  else if !(env.deviceNewOk newD) then []
  else env.hotUpdateFields newD

/-- Embeds the changed-config diff of vmQemu.Update (source part_000 lines
1592-1607): keys of the old then the new expanded config whose values differ,
deduplicated as collected. -/
def addChangedKeys (oldE newE : Config) (entries : Config) (acc : List String) : List String :=
  entries.foldl (fun a kv =>
    if cfgGet oldE kv.1 != cfgGet newE kv.1 && !a.contains kv.1 then a ++ [kv.1] else a) acc

def computeChangedConfig (oldE newE : Config) : List String :=
  addChangedKeys oldE newE newE (addChangedKeys oldE newE oldE [])

/-- Embeds the profile validation loop of vmQemu.Update (source part_000
lines 1462-1473). -/
def checkProfilesLoop (avail : List String) : List String → List String → Option UpdateErr
  | [], _ => none
  | p :: rest, seen =>
      if !avail.contains p then some .profileMissing
      else if seen.contains p then some .duplicateProfile
      else checkProfilesLoop avail rest (p :: seen)

/-- Embeds the reserved-namespace check of vmQemu.Update (source part_000
lines 1483-1504); the two distinct error messages are collapsed into one
error value. -/
def reservedKeyViolation (argsCfg lclCfg : Config) : Bool :=
  argsCfg.any (fun kv =>
    (strStarts kv.1 "volatile." && cfgGet lclCfg kv.1 != kv.2) ||
    (strStarts kv.1 "image." && cfgGet lclCfg kv.1 != kv.2)) ||
  lclCfg.any (fun kv =>
    (strStarts kv.1 "volatile." && cfgGet argsCfg kv.1 != kv.2) ||
    (strStarts kv.1 "image." && cfgGet argsCfg kv.1 != kv.2))

/-- Embeds the deferred undo closure of vmQemu.Update (source part_000 lines
1556-1569): the in-memory fields are restored from the snapshot; the
database-side fields are whatever they currently are. -/
def undoChanges (orig cur : VMState) : VMState :=
  { cur with
      description := orig.description,
      architecture := orig.architecture,
      ephemeral := orig.ephemeral,
      expandedConfig := orig.expandedConfig,
      expandedDevices := orig.expandedDevices,
      localConfig := orig.localConfig,
      localDevices := orig.localDevices,
      profiles := orig.profiles,
      expiryDate := orig.expiryDate }

/-- Embeds the removal loop of vmQemu.updateDevices (source part_000 lines
1751-1773) for a stopped instance: deviceStop is skipped, deviceRemove is a
no-op (source line 2096), and deviceResetVolatile runs per removed device. -/
def resetRemovedDevices (dbOk : Bool) (added : Devices) :
    Devices → VMState → VMState × Option String
  | [], st => (st, none)
  | d :: rest, st =>
      match deviceResetVolatile dbOk st d.1 d.2 (devGet added d.1) with
      | (st', none) => resetRemovedDevices dbOk added rest st'
      | (st', some e) => (st', some e)

/-- Embeds the update loop of vmQemu.updateDevices (source part_000 lines
1792-1797); the external driver Update call is an environment outcome. -/
def runDeviceUpdates (updOk : String → Bool) : Devices → Option UpdateErr
  | [] => none
  | d :: rest =>
      if !updOk d.1 then some (.deviceUpdateFailed d.1)
      else runDeviceUpdates updOk rest

/-- Embeds vmQemu.updateDevices (source part_000 lines 1747-1800) as called
from Update, where the instance is stopped: removals in reverse sorted
order (deviceResetVolatile persists volatile clears through VolatileSet),
additions are no-ops for a stopped instance (deviceAdd returns nil and
deviceStart is gated on isRunning), then driver updates in sorted order. -/
def updateDevicesStage (env : UpdateEnv) (st : VMState) (diff : DevDiff) :
    VMState × Option UpdateErr :=
  match resetRemovedDevices env.volatileDbOk diff.added ((devSorted diff.removed).reverse) st with
  | (st', some _) => (st', some .deviceVolatileReset)
  | (st', none) =>
      match runDeviceUpdates env.deviceUpdateOk (devSorted diff.updated) with
      | some e => (st', some e)
      | none => (st', none)

structure UpdateResult where
  st : VMState
  err : Option UpdateErr
  persisted : Bool
  nvramRegen : Bool
  diff : DevDiff
  changedConfig : List String
  maasUpdated : Bool
  deriving DecidableEq

def emptyDiff : DevDiff := ⟨[], [], [], []⟩

def mkUpdateErr (st : VMState) (e : UpdateErr) : UpdateResult :=
  { st := st, err := some e, persisted := false, nvramRegen := false,
    diff := emptyDiff, changedConfig := [], maasUpdated := false }

/-- Embeds the final database transaction of vmQemu.Update (source part_000
lines 1671-1721): snapshots persist only description and expiry date, full
instances persist config, profiles, devices and the core fields, atomically.
-/
def persistStage (st : VMState) : VMState :=
  if st.snapshot then
    { st with dbDescription := st.description, dbExpiryDate := st.expiryDate }
  else
    { st with
        dbConfig := st.localConfig,
        dbProfiles := st.profiles,
        dbDevices := st.localDevices,
        dbDescription := st.description,
        dbArchitecture := st.architecture,
        dbEphemeral := st.ephemeral,
        dbExpiryDate := st.expiryDate }

/-- Embeds the tail of vmQemu.Update (source part_000 lines 1671-1744): the
final persist, the backup file write (which runs after the commit, so its
failure leaves the commit in place while the deferred undo still reverts the
in-memory state), and clearing of the undo flag on success. -/
def persistTail (env : UpdateEnv) (orig cur : VMState) (nvram : Bool) (diff : DevDiff)
    (changed : List String) (maasDone : Bool) : UpdateResult :=
  if !env.dbCommitOk then
    { st := undoChanges orig cur, err := some .dbCommitFailed, persisted := false,
      nvramRegen := nvram, diff := diff, changedConfig := changed, maasUpdated := maasDone }
  else
    let cur' := persistStage cur
    if !env.backupWriteOk then
      { st := undoChanges orig cur', err := some .backupWriteFailed, persisted := true,
        nvramRegen := nvram, diff := diff, changedConfig := changed, maasUpdated := maasDone }
    else
      { st := cur', err := none, persisted := true,
        nvramRegen := nvram, diff := diff, changedConfig := changed, maasUpdated := maasDone }

/-- Embeds the middle of vmQemu.Update (source part_000 lines 1591-1668):
config diff, device diff, expanded validation, updateDevices, the MAAS
resync condition and the conditional NVRAM regeneration. -/
def updateAfterExpand (env : UpdateEnv) (orig cur : VMState) : UpdateResult :=
  let changed := computeChangedConfig orig.expandedConfig cur.expandedConfig
  let diff := devicesUpdate orig.expandedDevices cur.expandedDevices (updateExcludeFields env)
  if !env.validExpandedConfig then
    { st := undoChanges orig cur, err := some .invalidExpandedConfig, persisted := false,
      nvramRegen := false, diff := diff, changedConfig := changed, maasUpdated := false }
  else if !env.validExpandedDevices then
    { st := undoChanges orig cur, err := some .invalidExpandedDevices, persisted := false,
      nvramRegen := false, diff := diff, changedConfig := changed, maasUpdated := false }
  else
    match updateDevicesStage env cur diff with
    | (cur', some e) =>
        { st := undoChanges orig cur', err := some e, persisted := false,
          nvramRegen := false, diff := diff, changedConfig := changed, maasUpdated := false }
    | (cur', none) =>
        let maasNeeded := ["maas.subnet.ipv4", "maas.subnet.ipv6", "ipv4.address",
          "ipv6.address"].any (fun k => diff.changedFields.contains k)
        if !cur'.snapshot && maasNeeded && !env.maasOk then
          { st := undoChanges orig cur', err := some .maasFailed, persisted := false,
            nvramRegen := false, diff := diff, changedConfig := changed, maasUpdated := false }
        else
          let maasDone := !cur'.snapshot && maasNeeded
          if changed.contains "security.secureboot" then
            if !env.nvramCopyOk then
              { st := undoChanges orig cur', err := some .nvramFailed, persisted := false,
                nvramRegen := false, diff := diff, changedConfig := changed,
                maasUpdated := maasDone }
            else persistTail env orig cur' true diff changed maasDone
          else persistTail env orig cur' false diff changed maasDone

/-- Embeds vmQemu.Update (source part_000 lines 1418-1745): the running
check, argument defaulting, validation, the reserved-namespace check for
user-requested updates, the snapshot of every mutable field, speculative
application, re-expansion, and the stages above.  Failure paths return the
state produced by the deferred undo closure. -/
def Update (env : UpdateEnv) (st : VMState) (args : InstanceArgs)
    (userRequested : Bool) : UpdateResult :=
  if IsRunning env.monitor then mkUpdateErr st .updateWhilstRunning
  else
    let argsArch := if args.architecture == 0 then st.architecture else args.architecture
    if !env.validConfig then mkUpdateErr st .invalidConfig
    else if !env.validDevices then mkUpdateErr st .invalidDevices
    else
      match env.clusterProfiles with
      | none => mkUpdateErr st .profilesFetchFailed
      | some avail =>
          match checkProfilesLoop avail args.profiles [] with
          | some e => mkUpdateErr st e
          | none =>
              if argsArch != 0 && !env.archValid then mkUpdateErr st .invalidArchitecture
              else if userRequested && reservedKeyViolation args.config st.localConfig then
                mkUpdateErr st .reservedKeyChanged
              else
                let applied := { st with
                  description := args.description,
                  architecture := argsArch,
                  ephemeral := args.ephemeral,
                  localConfig := args.config,
                  localDevices := args.devices,
                  profiles := args.profiles,
                  expiryDate := args.expiryDate }
                if applied.profiles.isEmpty then
                  updateAfterExpand env st { applied with
                    expandedConfig := profilesExpandConfig [] applied.localConfig,
                    expandedDevices := profilesExpandDevices [] applied.localDevices }
                else
                  match env.profileData with
                  | none => mkUpdateErr (undoChanges st applied) .expandFailed
                  | some pd =>
                      updateAfterExpand env st { applied with
                        expandedConfig := profilesExpandConfig pd applied.localConfig,
                        expandedDevices := profilesExpandDevices pd applied.localDevices }

/-! ## The machine-description generator (vmQemu.generateQemuConfigFile)

The generated file is embedded as a list of structured sections carrying the
parameters the claims are about; each add*Config helper of the source
contributes its section in source order. -/

structure MountEntryItem where
  devPath : String
  targetPath : String
  deriving DecidableEq

structure RunConf where
  rootfsPath : String
  mounts : List MountEntryItem
  networkInterface : List (String × String)
  deriving DecidableEq

inductive QemuSection
  | baseSkeleton (qemuType : String) (archConf : String)
  | memory (bytes : Int)
  | cpu (count : Int)
  | firmwareCode
  | firmwareVars
  | vsock (cid : Int)
  | monitorSocket
  | confDrive
  | rootDrive (path : String)
  | drive (name : String) (path : String) (idx : Nat)
  | netDev (name tap hwaddr : String)
  deriving DecidableEq

structure GenEnv where
  parseMemory : String → Option Int
  rootDiskPath : Option String

def decDigit (c : Char) : Option Nat :=
  if 48 ≤ c.toNat && c.toNat ≤ 57 then some (c.toNat - 48) else none

def decNatAux : List Char → Nat → Option Nat
  | [], acc => some acc
  | c :: rest, acc =>
      match decDigit c with
      | some d => decNatAux rest (acc * 10 + d)
      | none => none

/-- Mirrors strconv.Atoi for the unsigned decimal strings the CPU-count
config key holds (signs are out of scope for this embedding). -/
def atoi (s : String) : Option Int :=
  match s.data with
  | [] => none
  | _ => (decNatAux s.data 0).map Int.ofNat

/-- Embeds vmQemu.addMemoryConfig (source part_000 lines 1077-1096);
units.ParseByteSizeString is the external parser in the environment. -/
def addMemoryConfig (env : GenEnv) (expandedConfig : Config) : Except String (List QemuSection) :=
  let memSize := if cfgGet expandedConfig "limits.memory" == "" then "1GB"
    else cfgGet expandedConfig "limits.memory"
  match env.parseMemory memSize with
  | none => .error "limits.memory invalid"
  | some n => .ok [.memory n]

/-- Embeds vmQemu.addCPUConfig (source part_000 lines 1122-1144). -/
def addCPUConfig (expandedConfig : Config) : Except String (List QemuSection) :=
  let cpus := if cfgGet expandedConfig "limits.cpu" == "" then "1"
    else cfgGet expandedConfig "limits.cpu"
  match atoi cpus with
  | none => .error "limits.cpu invalid"
  | some n => .ok [.cpu n]

/-- Embeds vmQemu.addRootDriveConfig (source part_000 lines 1211-1243): the
root drive section carries the reserved scsi-id 0. -/
def addRootDriveConfig (env : GenEnv) : Except String (List QemuSection) :=
  match env.rootDiskPath with
  | none => .error "root disk path unavailable"
  | some p => .ok [.rootDrive p]

/-- Embeds vmQemu.addDriveConfig (source part_000 lines 1246-1269): a
supplementary drive section at the given scsi-id. -/
def addDriveConfig (driveIndex : Nat) (drive : MountEntryItem) : QemuSection :=
  .drive drive.targetPath drive.devPath driveIndex

/-- Embeds the mount loop of vmQemu.generateQemuConfigFile (source part_000
lines 1055-1063): the index is incremented before use, so it starts at 1. -/
def addMountDrives (mounts : List MountEntryItem) (driveIndex : Nat) : List QemuSection :=
  match mounts with
  | [] => []
  | m :: rest => addDriveConfig (driveIndex + 1) m :: addMountDrives rest (driveIndex + 1)

/-- Embeds vmQemu.addNetDevConfig (source part_000 lines 1272-1311) to the
extent the claims need: the name, link and hwaddr run-config items. -/
def addNetDevConfig (nicConfig : List (String × String)) : QemuSection :=
  .netDev (cfgGet nicConfig "name") (cfgGet nicConfig "link") (cfgGet nicConfig "hwaddr")

/-- Embeds one iteration of the device loop of vmQemu.generateQemuConfigFile
(source part_000 lines 1045-1069): root drive first when the run config has a
root filesystem, then the mounts with a drive index local to this run config,
then the network device. -/
def runConfSections (env : GenEnv) (rc : RunConf) : Except String (List QemuSection) :=
  match (if rc.rootfsPath != "" then addRootDriveConfig env else .ok []) with
  | .error e => .error e
  | .ok rootSecs =>
      let driveSecs := if rc.mounts.length > 0 then addMountDrives rc.mounts 0 else []
      let netSecs := if rc.networkInterface.length > 0 then [addNetDevConfig rc.networkInterface]
        else []
      .ok (rootSecs ++ driveSecs ++ netSecs)

def allRunConfSections (env : GenEnv) : List RunConf → Except String (List QemuSection)
  | [] => .ok []
  | rc :: rest =>
      match runConfSections env rc with
      | .error e => .error e
      | .ok secs =>
          match allRunConfSections env rest with
          | .error e => .error e
          | .ok more => .ok (secs ++ more)

/-- Embeds vmQemu.generateQemuConfigFile (source part_000 lines 955-1074). -/
def generateQemuConfigFile (env : GenEnv) (expandedConfig : Config) (vsockCid : Int)
    (qemuType archConf : String) (devConfs : List RunConf) : Except String (List QemuSection) :=
  match addMemoryConfig env expandedConfig with
  | .error e => .error e
  | .ok memSecs =>
      match addCPUConfig expandedConfig with
      | .error e => .error e
      | .ok cpuSecs =>
          match allRunConfSections env devConfs with
          | .error e => .error e
          | .ok devSecs =>
              .ok ([.baseSkeleton qemuType archConf] ++ memSecs ++ cpuSecs ++
                [.firmwareCode, .firmwareVars, .vsock vsockCid, .monitorSocket, .confDrive] ++
                devSecs)

/-- Collects the scsi-ids of all drive sections of a generated file, in
order of emission; the root drive section carries scsi-id 0. -/
def scsiIds : List QemuSection → List Nat
  | [] => []
  | .rootDrive _ :: rest => 0 :: scsiIds rest
  | .drive _ _ i :: rest => i :: scsiIds rest
  | _ :: rest => scsiIds rest

/-- Drive scsi-ids one run config contributes: the reserved 0 when it carries
the root filesystem, then 1 .. number of mounts. -/
def runConfDriveIds (rc : RunConf) : List Nat :=
  (if rc.rootfsPath != "" then [0] else []) ++ List.range' 1 rc.mounts.length

/-! ## The unix hotplug subsystem -/

structure UnixHotplugEvent where
  action : String
  vendor : String
  product : String
  path : String
  major : Nat
  minor : Nat
  ueventParts : List String
  deriving DecidableEq

/-- Embeds unixHotplugIsOurDevice (src/lxd/device/unix_hotplug.go lines
17-24). -/
def unixHotplugIsOurDevice (config : Config) (e : UnixHotplugEvent) : Bool :=
  if (cfgGet config "vendorid" != "" && cfgGet config "vendorid" != e.vendor) ||
      (cfgGet config "productid" != "" && cfgGet config "productid" != e.product) then false
  else true

/-- Run config produced by a hotplug handler: the mount entries the external
device setup contributed, the number of post hooks, and the raw uevent
fragments. -/
structure HotplugRunConf where
  mounts : List String
  postHooks : Nat
  uevents : List (List String)
  deriving DecidableEq

structure HotplugEnv where
  setupCharNum : Except String (List String)
  deviceRemove : Except String (List String)
  deriving DecidableEq

/-- Embeds the event handler closure built by unixHotplug.Register
(src/unnamed/part_001 lines 73-107): a non-matching event returns nil run
config and nil error; an add event runs unixDeviceSetupCharNum (external,
outcome in the environment) and fails if it fails; a remove event runs
unixDeviceRemove and installs one post hook; every matching event appends
the uevent fragment to the returned run config. -/
def unixHotplugHandler (env : HotplugEnv) (deviceCfg : Config) (e : UnixHotplugEvent) :
    Except String (Option HotplugRunConf) :=
  if !(unixHotplugIsOurDevice deviceCfg e) then .ok none
  else if e.action == "add" then
    match env.setupCharNum with
    | .error msg => .error msg
    | .ok ms => .ok (some { mounts := ms, postHooks := 0, uevents := [e.ueventParts] })
  else if e.action == "remove" then
    match env.deviceRemove with
    | .error msg => .error msg
    | .ok ms => .ok (some { mounts := ms, postHooks := 1, uevents := [e.ueventParts] })
  else .ok (some { mounts := [], postHooks := 0, uevents := [e.ueventParts] })


/-! ## Rollback predicates and concrete fixtures -/

/-- In-memory fields of `r` coincide with those of the pre-call state `st`:
exactly the fields the deferred undo closure of Update restores. -/
def MemRestored (st r : VMState) : Prop :=
  r.description = st.description ∧ r.architecture = st.architecture ∧
  r.ephemeral = st.ephemeral ∧ r.localConfig = st.localConfig ∧
  r.localDevices = st.localDevices ∧ r.expandedConfig = st.expandedConfig ∧
  r.expandedDevices = st.expandedDevices ∧ r.profiles = st.profiles ∧
  r.expiryDate = st.expiryDate

/-- Database-side fields of `b` coincide with those of `a` except possibly
config keys under the volatile namespace. -/
def DbPreserved (a b : VMState) : Prop :=
  b.dbDevices = a.dbDevices ∧ b.dbProfiles = a.dbProfiles ∧
  b.dbDescription = a.dbDescription ∧ b.dbArchitecture = a.dbArchitecture ∧
  b.dbEphemeral = a.dbEphemeral ∧ b.dbExpiryDate = a.dbExpiryDate ∧
  b.snapshot = a.snapshot ∧
  ∀ k, strStarts k "volatile." = false →
    cfgGet b.dbConfig k = cfgGet a.dbConfig k ∧ cfgMem b.dbConfig k = cfgMem a.dbConfig k

def scsiIdsOf (r : Except String (List QemuSection)) : List Nat :=
  match r with
  | .ok ss => scsiIds ss
  | .error _ => []

/-- Monitor environment of a stopped instance: the monitor socket does not
exist. -/
def monStopped : MonitorEnv := ⟨false, true, true, true, ""⟩

/-- Monitor environment of a running instance: every step of the status
query succeeds and the reported status is running. -/
def monRunning : MonitorEnv := ⟨true, true, true, true, "running"⟩

/-- Monitor environment where the socket connects but the capabilities
handshake fails. -/
def monHandshakeFail : MonitorEnv := ⟨true, false, true, true, ""⟩

/-- Update environment in which every external collaborator succeeds and the
instance is stopped. -/
def updateEnvAllOk : UpdateEnv :=
  { monitor := monStopped, validConfig := true, validDevices := true,
    clusterProfiles := some [], archValid := true, profileData := some [],
    validExpandedConfig := true, validExpandedDevices := true,
    deviceNewOk := fun _ => true, hotUpdateFields := fun _ => [],
    volatileDbOk := true, deviceUpdateOk := fun _ => true,
    maasOk := true, nvramCopyOk := true, dbCommitOk := true, backupWriteOk := true }

def rootDiskDevice : Config := [("type", "disk"), ("path", "/"), ("pool", "default")]

/-- Scenario B fixture: a stopped full instance with one root disk device,
no profiles, and limits.cpu set to 1, database in sync. -/
def scenarioBState : VMState :=
  { description := "", architecture := 2, ephemeral := false, snapshot := false,
    localConfig := [("limits.cpu", "1")], localDevices := [("root", rootDiskDevice)],
    expandedConfig := [("limits.cpu", "1")], expandedDevices := [("root", rootDiskDevice)],
    profiles := [], expiryDate := 0,
    dbConfig := [("limits.cpu", "1")], dbDevices := [("root", rootDiskDevice)],
    dbProfiles := [], dbDescription := "", dbArchitecture := 2, dbEphemeral := false,
    dbExpiryDate := 0 }

/-- Scenario B arguments: identical to the current state except limits.cpu
becomes 2. -/
def scenarioBArgs : InstanceArgs :=
  { description := "", architecture := 2, ephemeral := false,
    config := [("limits.cpu", "2")], devices := [("root", rootDiskDevice)],
    profiles := [], expiryDate := 0 }

def bridgedNicDevice : Config := [("type", "nic"), ("nictype", "bridged"), ("parent", "br0")]

/-- Rollback fixture: a stopped instance carrying one nic device with a
persisted volatile hwaddr key, database in sync. -/
def rollbackState : VMState :=
  { description := "", architecture := 2, ephemeral := false, snapshot := false,
    localConfig := [("limits.cpu", "1"), ("volatile.eth0.hwaddr", "aa:bb:cc")],
    localDevices := [("eth0", bridgedNicDevice)],
    expandedConfig := [("limits.cpu", "1"), ("volatile.eth0.hwaddr", "aa:bb:cc")],
    expandedDevices := [("eth0", bridgedNicDevice)],
    profiles := [], expiryDate := 0,
    dbConfig := [("limits.cpu", "1"), ("volatile.eth0.hwaddr", "aa:bb:cc")],
    dbDevices := [("eth0", bridgedNicDevice)],
    dbProfiles := [], dbDescription := "", dbArchitecture := 2, dbEphemeral := false,
    dbExpiryDate := 0 }

/-- Rollback fixture arguments: the nic device is removed while the config
(including its volatile key) is passed through unchanged. -/
def rollbackArgs : InstanceArgs :=
  { description := "", architecture := 2, ephemeral := false,
    config := [("limits.cpu", "1"), ("volatile.eth0.hwaddr", "aa:bb:cc")],
    devices := [], profiles := [], expiryDate := 0 }

/-- Rollback fixture environment: everything succeeds except the final
database commit. -/
def rollbackEnv : UpdateEnv := { updateEnvAllOk with dbCommitOk := false }

/-- Generator fixture environment: memory parsing and the root disk path
resolve. -/
def genEnvOk : GenEnv :=
  { parseMemory := fun _ => some 1000000000, rootDiskPath := some "/dev/sda" }

/-- Generator fixture: a run config carrying the root filesystem and one
supplementary mount. -/
def genRunConfA : RunConf :=
  { rootfsPath := "/rootfs", mounts := [⟨"/dev/sdb", "disk1"⟩], networkInterface := [] }

/-- Generator fixture: a second run config carrying another supplementary
mount. -/
def genRunConfB : RunConf :=
  { rootfsPath := "", mounts := [⟨"/dev/sdc", "disk2"⟩], networkInterface := [] }

/-- Reserved-keys fixture arguments: the update tries to add a volatile
key. -/
def reservedKeysArgs : InstanceArgs :=
  { description := "", architecture := 2, ephemeral := false,
    config := [("volatile.new.key", "1")], devices := [], profiles := [], expiryDate := 0 }

def isOkGen (r : Except String (List QemuSection)) : Bool :=
  match r with
  | .ok _ => true
  | .error _ => false

/-- Hotplug fixture: the external unixDeviceSetupCharNum call fails. -/
def hotplugEnvSetupFails : HotplugEnv := ⟨Except.error "setup failed", Except.ok []⟩

/-- Hotplug fixture: the external unixDeviceSetupCharNum call succeeds with
one mount entry. -/
def hotplugEnvSetupOk : HotplugEnv := ⟨Except.ok ["m1"], Except.ok []⟩

/-- Hotplug fixture: a device config filtering only on the product id (the
vendor filter is the empty wildcard). -/
def hotplugCfgProduct : Config := [("productid", "1234")]

/-- Hotplug fixture: an add event whose product id matches the filter. -/
def hotplugAddEvent : UnixHotplugEvent :=
  ⟨"add", "beef", "1234", "/dev/bus/usb/001/002", 189, 1, ["a"]⟩

/-! ## Lemmas about the config map operations -/

theorem cfgGet_nil (k : String) : cfgGet [] k = "" := rfl

theorem cfgGet_cons (p : String × String) (c : Config) (k : String) :
    cfgGet (p :: c) k = if p.1 = k then p.2 else cfgGet c k := by
  by_cases h : p.1 = k
  · have hb : (p.1 == k) = true := by simpa using h
    simp [cfgGet, List.find?, hb, h]
  · have hb : (p.1 == k) = false := by simpa using h
    simp [cfgGet, List.find?, hb, h]

theorem cfgMem_cons (p : String × String) (c : Config) (k : String) :
    cfgMem (p :: c) k = (p.1 == k || cfgMem c k) := by
  simp [cfgMem, List.any_cons]

theorem cfgGet_of_not_mem (c : Config) (k : String) (h : cfgMem c k = false) :
    cfgGet c k = "" := by
  induction c with
  | nil => rfl
  | cons p rest ih =>
      rw [cfgMem_cons] at h
      rw [cfgGet_cons]
      have h1 : (p.1 == k) = false := by
        cases hb : (p.1 == k)
        · rfl
        · rw [hb, Bool.true_or] at h; cases h
      have h2 : cfgMem rest k = false := by
        rw [h1, Bool.false_or] at h; exact h
      have : p.1 ≠ k := by simpa using h1
      simp [this, ih h2]

theorem cfgGet_append (a b : Config) (k : String) :
    cfgGet (a ++ b) k = if cfgMem a k then cfgGet a k else cfgGet b k := by
  induction a with
  | nil => simp [cfgMem]
  | cons p rest ih =>
      rw [List.cons_append, cfgGet_cons, cfgGet_cons, cfgMem_cons]
      by_cases h : p.1 = k
      · have hb : (p.1 == k) = true := by simpa using h
        simp [h, hb]
      · have hb : (p.1 == k) = false := by simpa using h
        simp only [h, if_false, ih, hb, Bool.false_or]

theorem cfgDel_cons (p : String × String) (c : Config) (k : String) :
    cfgDel (p :: c) k = if p.1 = k then cfgDel c k else p :: cfgDel c k := by
  by_cases h : p.1 = k
  · have hb : (p.1 != k) = false := by simp [h]
    simp [cfgDel, List.filter_cons, hb, h]
  · have hb : (p.1 != k) = true := by simp [h]
    simp [cfgDel, List.filter_cons, hb, h]

theorem cfgGet_del (c : Config) (k k' : String) :
    cfgGet (cfgDel c k) k' = if k' = k then "" else cfgGet c k' := by
  induction c with
  | nil => simp [cfgDel, cfgGet]
  | cons p rest ih =>
      rw [cfgDel_cons]
      by_cases hpk : p.1 = k
      · rw [if_pos hpk, ih, cfgGet_cons]
        by_cases h' : k' = k
        · simp [h']
        · have hne : p.1 ≠ k' := by rw [hpk]; exact fun hh => h' hh.symm
          simp [h', hne]
      · rw [if_neg hpk, cfgGet_cons, ih, cfgGet_cons]
        by_cases hp' : p.1 = k'
        · have h' : k' ≠ k := by rw [← hp']; exact fun hh => hpk hh
          simp [hp', h']
        · simp [hp']

theorem cfgMem_del (c : Config) (k k' : String) :
    cfgMem (cfgDel c k) k' = if k' = k then false else cfgMem c k' := by
  induction c with
  | nil => simp [cfgDel, cfgMem]
  | cons p rest ih =>
      rw [cfgDel_cons]
      by_cases hpk : p.1 = k
      · rw [if_pos hpk, ih, cfgMem_cons]
        by_cases h' : k' = k
        · simp [h']
        · have hne : (p.1 == k') = false := by
            simp only [beq_eq_false_iff_ne, ne_eq]
            rw [hpk]; exact fun hh => h' hh.symm
          simp [h', hne]
      · rw [if_neg hpk, cfgMem_cons, ih, cfgMem_cons]
        by_cases h' : k' = k
        · have hne : (p.1 == k') = false := by
            simp only [beq_eq_false_iff_ne, ne_eq]
            rw [h']; exact hpk
          simp [h', hne, hpk]
        · simp [h']

theorem cfgGet_set_self (c : Config) (k v : String) :
    cfgGet (cfgSet c k v) k = v := by
  rw [cfgSet, cfgGet_append, cfgMem_del]
  simp [cfgGet_cons]

theorem cfgGet_set_ne (c : Config) (k v k' : String) (h : k' ≠ k) :
    cfgGet (cfgSet c k v) k' = cfgGet c k' := by
  rw [cfgSet, cfgGet_append, cfgMem_del, cfgGet_del]
  simp only [h, if_false]
  by_cases hm : cfgMem c k'
  · simp [hm]
  · simp only [hm, Bool.false_eq_true, if_false]
    have hk : (k, v).1 ≠ k' := fun hh => h hh.symm
    rw [cfgGet_cons, if_neg hk, cfgGet_nil, cfgGet_of_not_mem c k' (by simpa using hm)]

theorem cfgMem_set_self (c : Config) (k v : String) :
    cfgMem (cfgSet c k v) k = true := by
  rw [cfgSet, cfgMem]
  simp

theorem cfgMem_set_ne (c : Config) (k v k' : String) (h : k' ≠ k) :
    cfgMem (cfgSet c k v) k' = cfgMem c k' := by
  rw [cfgSet, cfgMem, List.any_append]
  have h1 : cfgMem (cfgDel c k) k' = cfgMem c k' := by
    rw [cfgMem_del]; simp [h]
  rw [show (cfgDel c k).any (fun p => p.1 == k') = cfgMem (cfgDel c k) k' from rfl, h1]
  have : ([(k, v)].any fun p => p.1 == k') = false := by
    simp only [List.any_cons, List.any_nil, Bool.or_false]
    simpa using fun hh => h hh.symm
  rw [this, Bool.or_false]

/-! ## Lemmas about change application -/

theorem cfgApplyChanges_cons (c : Config) (kv : String × String) (rest : Config) :
    cfgApplyChanges c (kv :: rest) = cfgApplyChanges (cfgApplyChange c kv) rest := rfl

theorem cfgApplyChange_get_ne (c : Config) (kv : String × String) (k : String) (h : kv.1 ≠ k) :
    cfgGet (cfgApplyChange c kv) k = cfgGet c k := by
  unfold cfgApplyChange
  split
  · rw [cfgGet_del, if_neg (fun hh => h hh.symm)]
  · exact cfgGet_set_ne c kv.1 kv.2 k (fun hh => h hh.symm)

theorem cfgApplyChange_mem_ne (c : Config) (kv : String × String) (k : String) (h : kv.1 ≠ k) :
    cfgMem (cfgApplyChange c kv) k = cfgMem c k := by
  unfold cfgApplyChange
  split
  · rw [cfgMem_del, if_neg (fun hh => h hh.symm)]
  · exact cfgMem_set_ne c kv.1 kv.2 k (fun hh => h hh.symm)

theorem cfgApplyChanges_get_of_not_key (c : Config) (ch : Config) (k : String)
    (h : ∀ kv ∈ ch, kv.1 ≠ k) :
    cfgGet (cfgApplyChanges c ch) k = cfgGet c k := by
  induction ch generalizing c with
  | nil => rfl
  | cons kv rest ih =>
      rw [cfgApplyChanges_cons, ih _ (fun x hx => h x (List.mem_cons_of_mem _ hx)),
        cfgApplyChange_get_ne c kv k (h kv (List.mem_cons_self _ _))]

theorem cfgApplyChanges_mem_of_not_key (c : Config) (ch : Config) (k : String)
    (h : ∀ kv ∈ ch, kv.1 ≠ k) :
    cfgMem (cfgApplyChanges c ch) k = cfgMem c k := by
  induction ch generalizing c with
  | nil => rfl
  | cons kv rest ih =>
      rw [cfgApplyChanges_cons, ih _ (fun x hx => h x (List.mem_cons_of_mem _ hx)),
        cfgApplyChange_mem_ne c kv k (h kv (List.mem_cons_self _ _))]

theorem nokey_of_nodup_head (kv : String × String) (rest : Config)
    (hnd : (cfgKeys (kv :: rest)).Nodup) : ∀ x ∈ rest, x.1 ≠ kv.1 := by
  intro x hx he
  have hcons : (kv.1 :: cfgKeys rest).Nodup := by simpa [cfgKeys] using hnd
  have hnotin : kv.1 ∉ cfgKeys rest := (List.nodup_cons.mp hcons).1
  apply hnotin
  rw [← he]
  exact List.mem_map_of_mem _ hx

theorem nodup_keys_tail (kv : String × String) (rest : Config)
    (hnd : (cfgKeys (kv :: rest)).Nodup) : (cfgKeys rest).Nodup := by
  have hcons : (kv.1 :: cfgKeys rest).Nodup := by simpa [cfgKeys] using hnd
  exact (List.nodup_cons.mp hcons).2

theorem cfgApplyChanges_of_mem_empty (c : Config) (ch : Config) (k : String)
    (hnd : (cfgKeys ch).Nodup) (hmem : (k, "") ∈ ch) :
    cfgMem (cfgApplyChanges c ch) k = false ∧ cfgGet (cfgApplyChanges c ch) k = "" := by
  induction ch generalizing c with
  | nil => cases hmem
  | cons kv rest ih =>
      rw [cfgApplyChanges_cons]
      rcases List.mem_cons.mp hmem with h1 | h1
      · have hk1 : kv.1 = k := by rw [← h1]
        have hk2 : kv.2 = "" := by rw [← h1]
        have hnokey : ∀ x ∈ rest, x.1 ≠ k := by
          intro x hx
          rw [← hk1]
          exact nokey_of_nodup_head kv rest hnd x hx
        rw [cfgApplyChanges_mem_of_not_key _ _ _ hnokey,
          cfgApplyChanges_get_of_not_key _ _ _ hnokey]
        unfold cfgApplyChange
        rw [if_pos (by simp [hk2])]
        constructor
        · rw [cfgMem_del, if_pos hk1.symm]
        · rw [cfgGet_del, if_pos hk1.symm]
      · exact ih _ (nodup_keys_tail kv rest hnd) h1

theorem cfgApplyChanges_of_mem_set (c : Config) (ch : Config) (k v : String)
    (hnd : (cfgKeys ch).Nodup) (hv : v ≠ "") (hmem : (k, v) ∈ ch) :
    cfgGet (cfgApplyChanges c ch) k = v ∧ cfgMem (cfgApplyChanges c ch) k = true := by
  induction ch generalizing c with
  | nil => cases hmem
  | cons kv rest ih =>
      rw [cfgApplyChanges_cons]
      rcases List.mem_cons.mp hmem with h1 | h1
      · have hk1 : kv.1 = k := by rw [← h1]
        have hk2 : kv.2 = v := by rw [← h1]
        have hnokey : ∀ x ∈ rest, x.1 ≠ k := by
          intro x hx
          rw [← hk1]
          exact nokey_of_nodup_head kv rest hnd x hx
        rw [cfgApplyChanges_mem_of_not_key _ _ _ hnokey,
          cfgApplyChanges_get_of_not_key _ _ _ hnokey]
        unfold cfgApplyChange
        rw [if_neg (by simp [hk2, hv])]
        constructor
        · rw [hk1.symm, ← hk2]
          exact cfgGet_set_self c kv.1 kv.2
        · rw [hk1.symm]
          exact cfgMem_set_self c kv.1 kv.2
      · exact ih _ (nodup_keys_tail kv rest hnd) h1

/-! ## Lemmas about database preservation through volatile writes -/

theorem memRestored_refl (a : VMState) : MemRestored a a :=
  ⟨rfl, rfl, rfl, rfl, rfl, rfl, rfl, rfl, rfl⟩

theorem dbPreserved_refl (a : VMState) : DbPreserved a a :=
  ⟨rfl, rfl, rfl, rfl, rfl, rfl, rfl, fun _ _ => ⟨rfl, rfl⟩⟩

theorem dbPreserved_trans {a b c : VMState} (h1 : DbPreserved a b) (h2 : DbPreserved b c) :
    DbPreserved a c := by
  obtain ⟨q1, q2, q3, q4, q5, q6, q7, qf⟩ := h1
  obtain ⟨r1, r2, r3, r4, r5, r6, r7, rf⟩ := h2
  refine ⟨r1.trans q1, r2.trans q2, r3.trans q3, r4.trans q4, r5.trans q5, r6.trans q6,
    r7.trans q7, fun k hk => ?_⟩
  obtain ⟨g1, m1⟩ := qf k hk
  obtain ⟨g2, m2⟩ := rf k hk
  exact ⟨g2.trans g1, m2.trans m1⟩

theorem VolatileSet_preserves (dbOk : Bool) (st : VMState) (ch : Config) :
    DbPreserved st (VolatileSet dbOk st ch).1 := by
  by_cases hbad : ch.any (fun kv => !(strStarts kv.1 "volatile.")) = true
  · rw [VolatileSet, if_pos hbad]
    exact dbPreserved_refl st
  · have hkeysAll : ∀ kv ∈ ch, strStarts kv.1 "volatile." = true := by
      intro kv hkv
      by_contra hc
      apply hbad
      refine List.any_eq_true.mpr ⟨kv, hkv, ?_⟩
      simp only [Bool.not_eq_true] at hc
      simp [hc]
    by_cases hdb : dbOk
    · rw [VolatileSet, if_neg (by simp [hbad]), if_neg (by simp [hdb])]
      refine ⟨rfl, rfl, rfl, rfl, rfl, rfl, rfl, fun k hk => ?_⟩
      have hne : ∀ kv ∈ ch, kv.1 ≠ k := by
        intro kv hkv he
        have hh := hkeysAll kv hkv
        rw [he, hk] at hh
        cases hh
      exact ⟨cfgApplyChanges_get_of_not_key _ _ _ hne, cfgApplyChanges_mem_of_not_key _ _ _ hne⟩
    · rw [VolatileSet, if_neg (by simp [hbad]), if_pos (by simp [hdb])]
      exact dbPreserved_refl st

theorem deviceResetVolatile_preserves (dbOk : Bool) (st : VMState) (devName : String)
    (oldC newC : Config) :
    DbPreserved st (deviceResetVolatile dbOk st devName oldC newC).1 := by
  unfold deviceResetVolatile
  split
  · exact VolatileSet_preserves _ _ _
  · exact VolatileSet_preserves _ _ _

theorem resetRemovedDevices_preserves (dbOk : Bool) (added : Devices) (ds : Devices)
    (st : VMState) :
    DbPreserved st (resetRemovedDevices dbOk added ds st).1 := by
  induction ds generalizing st with
  | nil => exact dbPreserved_refl st
  | cons d rest ih =>
      unfold resetRemovedDevices
      rcases hr : deviceResetVolatile dbOk st d.1 d.2 (devGet added d.1) with ⟨st', e⟩
      have hpre : DbPreserved st st' := by
        have hh := deviceResetVolatile_preserves dbOk st d.1 d.2 (devGet added d.1)
        rw [hr] at hh
        exact hh
      cases e with
      | none => exact dbPreserved_trans hpre (ih st')
      | some msg => exact hpre

theorem updateDevicesStage_preserves (env : UpdateEnv) (st : VMState) (diff : DevDiff) :
    DbPreserved st (updateDevicesStage env st diff).1 := by
  unfold updateDevicesStage
  rcases hr : resetRemovedDevices env.volatileDbOk diff.added
      ((devSorted diff.removed).reverse) st with ⟨st', e⟩
  have hpre : DbPreserved st st' := by
    have hh := resetRemovedDevices_preserves env.volatileDbOk diff.added
      ((devSorted diff.removed).reverse) st
    rw [hr] at hh
    exact hh
  cases e with
  | none =>
      cases hu : runDeviceUpdates env.deviceUpdateOk (devSorted diff.updated) with
      | none => simpa [hu] using hpre
      | some e' => simpa [hu] using hpre
  | some msg => exact hpre

theorem undoChanges_memRestored (orig cur : VMState) : MemRestored orig (undoChanges orig cur) :=
  ⟨rfl, rfl, rfl, rfl, rfl, rfl, rfl, rfl, rfl⟩

theorem undoChanges_dbPreserved {orig cur : VMState} (h : DbPreserved orig cur) :
    DbPreserved orig (undoChanges orig cur) := h

/-! ## Lemmas about the Update pipeline -/

theorem persistTail_nvramRegen (env : UpdateEnv) (orig cur : VMState) (nv : Bool)
    (diff : DevDiff) (ch : List String) (md : Bool) :
    (persistTail env orig cur nv diff ch md).nvramRegen = nv := by
  unfold persistTail
  split
  · rfl
  · split
    · rfl
    · rfl

theorem persistTail_changedConfig (env : UpdateEnv) (orig cur : VMState) (nv : Bool)
    (diff : DevDiff) (ch : List String) (md : Bool) :
    (persistTail env orig cur nv diff ch md).changedConfig = ch := by
  unfold persistTail
  split
  · rfl
  · split
    · rfl
    · rfl

theorem persistTail_rollback (env : UpdateEnv) (orig cur : VMState) (nv : Bool)
    (diff : DevDiff) (ch : List String) (md : Bool) (e : UpdateErr)
    (hdb : DbPreserved orig cur)
    (he : (persistTail env orig cur nv diff ch md).err = some e)
    (hp : (persistTail env orig cur nv diff ch md).persisted = false) :
    MemRestored orig (persistTail env orig cur nv diff ch md).st ∧
      DbPreserved orig (persistTail env orig cur nv diff ch md).st := by
  unfold persistTail at he hp ⊢
  by_cases hc : env.dbCommitOk
  · by_cases hb : env.backupWriteOk
    · rw [if_neg (by simp [hc])] at he
      rw [if_neg (by simp [hb])] at he
      cases he
    · rw [if_neg (by simp [hc])] at hp
      rw [if_pos (by simp [hb])] at hp
      cases hp
  · rw [if_pos (by simp [hc])] at he hp ⊢
    exact ⟨undoChanges_memRestored orig cur, undoChanges_dbPreserved hdb⟩

theorem updateAfterExpand_rollback (env : UpdateEnv) (orig cur : VMState) (e : UpdateErr)
    (hdb : DbPreserved orig cur)
    (he : (updateAfterExpand env orig cur).err = some e)
    (hp : (updateAfterExpand env orig cur).persisted = false) :
    MemRestored orig (updateAfterExpand env orig cur).st ∧
      DbPreserved orig (updateAfterExpand env orig cur).st := by
  unfold updateAfterExpand at he hp ⊢
  by_cases h1 : env.validExpandedConfig
  · rw [if_neg (by simp [h1])] at he hp ⊢
    by_cases h2 : env.validExpandedDevices
    · rw [if_neg (by simp [h2])] at he hp ⊢
      have hh := updateDevicesStage_preserves env cur
        (devicesUpdate orig.expandedDevices cur.expandedDevices (updateExcludeFields env))
      generalize hr : updateDevicesStage env cur
          (devicesUpdate orig.expandedDevices cur.expandedDevices (updateExcludeFields env)) = res
        at he hp hh ⊢
      rcases res with ⟨cur', eo⟩
      have hpre : DbPreserved orig cur' := dbPreserved_trans hdb hh
      cases eo with
      | some e' =>
          exact ⟨undoChanges_memRestored orig cur', undoChanges_dbPreserved hpre⟩
      | none =>
          dsimp only at he hp ⊢
          by_cases hm : !cur'.snapshot &&
              (["maas.subnet.ipv4", "maas.subnet.ipv6", "ipv4.address", "ipv6.address"].any
                (fun k => (devicesUpdate orig.expandedDevices cur.expandedDevices
                  (updateExcludeFields env)).changedFields.contains k)) && !env.maasOk
          · rw [if_pos hm] at he hp ⊢
            exact ⟨undoChanges_memRestored orig cur', undoChanges_dbPreserved hpre⟩
          · rw [if_neg hm] at he hp ⊢
            by_cases hs : (computeChangedConfig orig.expandedConfig
                cur.expandedConfig).contains "security.secureboot"
            · rw [if_pos hs] at he hp ⊢
              by_cases hn : env.nvramCopyOk
              · rw [if_neg (by simp [hn])] at he hp ⊢
                exact persistTail_rollback env orig cur' true _ _ _ e hpre he hp
              · rw [if_pos (by simp [hn])] at he hp ⊢
                exact ⟨undoChanges_memRestored orig cur', undoChanges_dbPreserved hpre⟩
            · rw [if_neg hs] at he hp ⊢
              exact persistTail_rollback env orig cur' false _ _ _ e hpre he hp
    · rw [if_pos (by simp [h2])] at he hp ⊢
      exact ⟨undoChanges_memRestored orig cur, undoChanges_dbPreserved hdb⟩
  · rw [if_pos (by simp [h1])] at he hp ⊢
    exact ⟨undoChanges_memRestored orig cur, undoChanges_dbPreserved hdb⟩

theorem update_shape (env : UpdateEnv) (st : VMState) (args : InstanceArgs) (u : Bool) :
    (∃ e, Update env st args u = mkUpdateErr st e) ∨
    (∃ cur, DbPreserved st cur ∧ Update env st args u = updateAfterExpand env st cur) := by
  simp only [Update]
  repeat' split
  all_goals first
    | exact Or.inl ⟨_, rfl⟩
    | (refine Or.inr ⟨_, ?_, rfl⟩
       exact ⟨rfl, rfl, rfl, rfl, rfl, rfl, rfl, fun _ _ => ⟨rfl, rfl⟩⟩)

theorem runDeviceUpdates_err_shape (updOk : String → Bool) (ds : Devices) (e : UpdateErr)
    (h : runDeviceUpdates updOk ds = some e) : ∃ n, e = .deviceUpdateFailed n := by
  induction ds with
  | nil => cases h
  | cons d rest ih =>
      unfold runDeviceUpdates at h
      by_cases hc : updOk d.1
      · rw [if_neg (by simp [hc])] at h
        exact ih h
      · rw [if_pos (by simp [hc])] at h
        cases h
        exact ⟨d.1, rfl⟩

theorem updateDevicesStage_err_shape (env : UpdateEnv) (st : VMState) (diff : DevDiff)
    (e : UpdateErr) (h : (updateDevicesStage env st diff).2 = some e) :
    e = .deviceVolatileReset ∨ ∃ n, e = .deviceUpdateFailed n := by
  unfold updateDevicesStage at h
  generalize hr : resetRemovedDevices env.volatileDbOk diff.added
      ((devSorted diff.removed).reverse) st = res at h
  rcases res with ⟨st', eo⟩
  cases eo with
  | some msg => exact Or.inl (by cases h; rfl)
  | none =>
      generalize hu : runDeviceUpdates env.deviceUpdateOk (devSorted diff.updated) = ru at h
      cases ru with
      | none => cases h
      | some e' =>
          cases h
          exact Or.inr (runDeviceUpdates_err_shape _ _ _ hu)

theorem persistTail_err_shape (env : UpdateEnv) (orig cur : VMState) (nv : Bool)
    (diff : DevDiff) (ch : List String) (md : Bool) :
    (persistTail env orig cur nv diff ch md).err = some .dbCommitFailed ∨
    (persistTail env orig cur nv diff ch md).err = some .backupWriteFailed ∨
    (persistTail env orig cur nv diff ch md).err = none := by
  unfold persistTail
  split
  · exact Or.inl rfl
  · split
    · exact Or.inr (Or.inl rfl)
    · exact Or.inr (Or.inr rfl)

theorem persistTail_err_not_reserved (env : UpdateEnv) (orig cur : VMState) (nv : Bool)
    (diff : DevDiff) (ch : List String) (md : Bool) :
    (persistTail env orig cur nv diff ch md).err ≠ some .reservedKeyChanged := by
  unfold persistTail
  split
  · simp
  · split
    · simp
    · simp

theorem updateAfterExpand_err_not_reserved (env : UpdateEnv) (orig cur : VMState) :
    (updateAfterExpand env orig cur).err ≠ some .reservedKeyChanged := by
  unfold updateAfterExpand
  by_cases h1 : env.validExpandedConfig
  · rw [if_neg (by simp [h1])]
    by_cases h2 : env.validExpandedDevices
    · rw [if_neg (by simp [h2])]
      generalize hr : updateDevicesStage env cur
          (devicesUpdate orig.expandedDevices cur.expandedDevices (updateExcludeFields env)) = res
      rcases res with ⟨cur', eo⟩
      cases eo with
      | some e' =>
          have hsh := updateDevicesStage_err_shape env cur
            (devicesUpdate orig.expandedDevices cur.expandedDevices (updateExcludeFields env)) e'
            (by rw [hr])
          intro hcontra
          simp only [Option.some.injEq] at hcontra
          rcases hsh with h | ⟨n, h⟩
          · rw [hcontra] at h
            cases h
          · rw [hcontra] at h
            cases h
      | none =>
          dsimp only
          split
          · simp
          · split
            · split
              · simp
              · exact fun hcontra => persistTail_err_not_reserved env orig cur' true _ _ _ hcontra
            · exact fun hcontra => persistTail_err_not_reserved env orig cur' false _ _ _ hcontra
    · rw [if_pos (by simp [h2])]
      simp
  · rw [if_pos (by simp [h1])]
    simp

theorem updateAfterExpand_nvram (env : UpdateEnv) (orig cur : VMState)
    (he : (updateAfterExpand env orig cur).err = none) :
    ((updateAfterExpand env orig cur).nvramRegen = true ↔
      "security.secureboot" ∈ (updateAfterExpand env orig cur).changedConfig) := by
  unfold updateAfterExpand at he ⊢
  by_cases h1 : env.validExpandedConfig
  · rw [if_neg (by simp [h1])] at he ⊢
    by_cases h2 : env.validExpandedDevices
    · rw [if_neg (by simp [h2])] at he ⊢
      generalize hr : updateDevicesStage env cur
          (devicesUpdate orig.expandedDevices cur.expandedDevices (updateExcludeFields env)) = res
        at he ⊢
      rcases res with ⟨cur', eo⟩
      cases eo with
      | some e' => simp at he
      | none =>
          dsimp only at he ⊢
          by_cases hm : !cur'.snapshot &&
              (["maas.subnet.ipv4", "maas.subnet.ipv6", "ipv4.address", "ipv6.address"].any
                (fun k => (devicesUpdate orig.expandedDevices cur.expandedDevices
                  (updateExcludeFields env)).changedFields.contains k)) && !env.maasOk
          · rw [if_pos hm] at he
            simp at he
          · rw [if_neg hm] at he ⊢
            by_cases hs : (computeChangedConfig orig.expandedConfig
                cur.expandedConfig).contains "security.secureboot"
            · rw [if_pos hs] at he ⊢
              by_cases hn : env.nvramCopyOk
              · rw [if_neg (by simp [hn])] at he ⊢
                rw [persistTail_nvramRegen, persistTail_changedConfig]
                exact iff_of_true rfl (List.elem_iff.mp hs)
              · rw [if_pos (by simp [hn])] at he
                simp at he
            · rw [if_neg hs] at he ⊢
              rw [persistTail_nvramRegen, persistTail_changedConfig]
              apply iff_of_false
              · simp
              · intro hmem
                exact absurd (List.elem_iff.mpr hmem) (by simpa using hs)
    · rw [if_pos (by simp [h2])] at he
      simp at he
  · rw [if_pos (by simp [h1])] at he
    simp at he

/-! ## Lemmas about the reserved-namespace check -/

theorem cfgGet_of_pair_mem_nodup (c : Config) (k v : String)
    (hnd : (cfgKeys c).Nodup) (hmem : (k, v) ∈ c) : cfgGet c k = v := by
  induction c with
  | nil => cases hmem
  | cons p rest ih =>
      rcases List.mem_cons.mp hmem with h1 | h1
      · rw [← h1, cfgGet_cons]
        simp
      · have hk : p.1 ≠ k := by
          intro he
          exact nokey_of_nodup_head p rest hnd (k, v) h1 he.symm
        rw [cfgGet_cons, if_neg hk]
        exact ih (nodup_keys_tail p rest hnd) h1

theorem pair_mem_of_cfgMem (c : Config) (k : String) (h : cfgMem c k = true) :
    ∃ v, (k, v) ∈ c := by
  induction c with
  | nil => simp [cfgMem] at h
  | cons p rest ih =>
      rw [cfgMem_cons] at h
      by_cases hb : p.1 = k
      · exact ⟨p.2, by rw [← hb]; exact List.mem_cons_self _ _⟩
      · have hrest : cfgMem rest k = true := by
          cases hpb : (p.1 == k)
          · rw [hpb, Bool.false_or] at h
            exact h
          · exact absurd (by simpa using hpb) hb
        obtain ⟨v, hv⟩ := ih hrest
        exact ⟨v, List.mem_cons_of_mem _ hv⟩

theorem reservedEntryCheck (l : Config) (kv : String × String) :
    ((strStarts kv.1 "volatile." && cfgGet l kv.1 != kv.2) ||
      (strStarts kv.1 "image." && cfgGet l kv.1 != kv.2)) = false ↔
    ((strStarts kv.1 "volatile." = true ∨ strStarts kv.1 "image." = true) →
      cfgGet l kv.1 = kv.2) := by
  cases hsv : strStarts kv.1 "volatile." <;> cases hsi : strStarts kv.1 "image." <;>
    by_cases hg : cfgGet l kv.1 = kv.2 <;> simp [hg, bne_iff_ne]

theorem reservedSideCheck (l : Config) (c : Config) :
    (c.any (fun kv =>
      (strStarts kv.1 "volatile." && cfgGet l kv.1 != kv.2) ||
      (strStarts kv.1 "image." && cfgGet l kv.1 != kv.2))) = false ↔
    ∀ kv ∈ c, (strStarts kv.1 "volatile." = true ∨ strStarts kv.1 "image." = true) →
      cfgGet l kv.1 = kv.2 := by
  rw [List.any_eq_false]
  constructor
  · intro h kv hkv
    exact (reservedEntryCheck l kv).mp (by simpa using h kv hkv)
  · intro h kv hkv
    simpa using (reservedEntryCheck l kv).mpr (h kv hkv)

theorem reservedKeyViolation_eq_false_iff (a l : Config)
    (ha : (cfgKeys a).Nodup) (hl : (cfgKeys l).Nodup) :
    reservedKeyViolation a l = false ↔
      ∀ k, (strStarts k "volatile." = true ∨ strStarts k "image." = true) →
        cfgGet a k = cfgGet l k := by
  unfold reservedKeyViolation
  rw [Bool.or_eq_false_iff, reservedSideCheck, reservedSideCheck]
  constructor
  · rintro ⟨hA, hL⟩ k hres
    by_cases hmA : cfgMem a k
    · obtain ⟨v, hv⟩ := pair_mem_of_cfgMem a k hmA
      rw [cfgGet_of_pair_mem_nodup a k v ha hv]
      exact (hA (k, v) hv hres).symm
    · by_cases hmL : cfgMem l k
      · obtain ⟨v, hv⟩ := pair_mem_of_cfgMem l k hmL
        rw [cfgGet_of_pair_mem_nodup l k v hl hv]
        exact hL (k, v) hv hres
      · rw [cfgGet_of_not_mem a k (by simpa using hmA),
          cfgGet_of_not_mem l k (by simpa using hmL)]
  · intro hag
    constructor
    · intro kv hkv hres
      rw [← cfgGet_of_pair_mem_nodup a kv.1 kv.2 ha hkv]
      exact (hag kv.1 hres).symm
    · intro kv hkv hres
      rw [← cfgGet_of_pair_mem_nodup l kv.1 kv.2 hl hkv]
      exact hag kv.1 hres

/-! ## Lemmas about the generated machine description -/

theorem scsiIds_append (a b : List QemuSection) :
    scsiIds (a ++ b) = scsiIds a ++ scsiIds b := by
  induction a with
  | nil => rfl
  | cons s rest ih => cases s <;> simp [scsiIds, ih]

theorem addMountDrives_ids (ms : List MountEntryItem) (i : Nat) :
    scsiIds (addMountDrives ms i) = List.range' (i + 1) ms.length := by
  induction ms generalizing i with
  | nil => rfl
  | cons m rest ih =>
      simp [addMountDrives, addDriveConfig, scsiIds, ih, List.range'_succ]

theorem runConfSections_ids (env : GenEnv) (rc : RunConf) (secs : List QemuSection)
    (h : runConfSections env rc = .ok secs) :
    scsiIds secs = runConfDriveIds rc := by
  unfold runConfSections at h
  have hdrives : scsiIds (if rc.mounts.length > 0 then addMountDrives rc.mounts 0 else []) =
      List.range' 1 rc.mounts.length := by
    split
    · exact addMountDrives_ids rc.mounts 0
    · next hlen =>
        have h0 : rc.mounts.length = 0 := by omega
        rw [h0]
        rfl
  have hnet : scsiIds (if rc.networkInterface.length > 0
      then [addNetDevConfig rc.networkInterface] else []) = [] := by
    split
    · rfl
    · rfl
  by_cases hroot : rc.rootfsPath != ""
  · rw [if_pos hroot] at h
    unfold addRootDriveConfig at h
    cases hr : env.rootDiskPath with
    | none =>
        rw [hr] at h
        cases h
    | some p =>
        rw [hr] at h
        cases h
        rw [scsiIds_append, scsiIds_append, hdrives, hnet, List.append_nil]
        unfold runConfDriveIds
        rw [if_pos hroot]
        rfl
  · rw [if_neg hroot] at h
    cases h
    rw [scsiIds_append, scsiIds_append, hdrives, hnet, List.append_nil]
    unfold runConfDriveIds
    rw [if_neg hroot]
    rfl

theorem allRunConfSections_ids (env : GenEnv) (rcs : List RunConf) (secs : List QemuSection)
    (h : allRunConfSections env rcs = .ok secs) :
    scsiIds secs = (rcs.map runConfDriveIds).flatten := by
  induction rcs generalizing secs with
  | nil =>
      cases h
      rfl
  | cons rc rest ih =>
      unfold allRunConfSections at h
      cases h1 : runConfSections env rc with
      | error e =>
          rw [h1] at h
          cases h
      | ok s1 =>
          rw [h1] at h
          cases h2 : allRunConfSections env rest with
          | error e =>
              rw [h2] at h
              cases h
          | ok s2 =>
              rw [h2] at h
              cases h
              rw [scsiIds_append, runConfSections_ids env rc s1 h1, ih s2 h2]
              simp

theorem addMemoryConfig_ok (env : GenEnv) (cfg : Config) (ms : List QemuSection)
    (h : addMemoryConfig env cfg = .ok ms) : ∃ n, ms = [.memory n] := by
  unfold addMemoryConfig at h
  dsimp only at h
  cases hp : env.parseMemory (if cfgGet cfg "limits.memory" == "" then "1GB"
      else cfgGet cfg "limits.memory") with
  | none =>
      rw [hp] at h
      cases h
  | some n =>
      rw [hp] at h
      cases h
      exact ⟨n, rfl⟩

theorem addCPUConfig_ok (cfg : Config) (ms : List QemuSection)
    (h : addCPUConfig cfg = .ok ms) : ∃ n, ms = [.cpu n] := by
  unfold addCPUConfig at h
  dsimp only at h
  cases hp : atoi (if cfgGet cfg "limits.cpu" == "" then "1" else cfgGet cfg "limits.cpu") with
  | none =>
      rw [hp] at h
      cases h
  | some n =>
      rw [hp] at h
      cases h
      exact ⟨n, rfl⟩

theorem generateQemuConfigFile_ids (env : GenEnv) (cfg : Config) (cid : Int)
    (qt ac : String) (devConfs : List RunConf) (secs : List QemuSection)
    (h : generateQemuConfigFile env cfg cid qt ac devConfs = .ok secs) :
    scsiIds secs = (devConfs.map runConfDriveIds).flatten := by
  unfold generateQemuConfigFile at h
  cases h1 : addMemoryConfig env cfg with
  | error e =>
      rw [h1] at h
      cases h
  | ok memSecs =>
      rw [h1] at h
      cases h2 : addCPUConfig cfg with
      | error e =>
          rw [h2] at h
          cases h
      | ok cpuSecs =>
          rw [h2] at h
          cases h3 : allRunConfSections env devConfs with
          | error e =>
              rw [h3] at h
              cases h
          | ok devSecs =>
              rw [h3] at h
              cases h
              obtain ⟨nm, hm⟩ := addMemoryConfig_ok env cfg memSecs h1
              obtain ⟨nc, hc⟩ := addCPUConfig_ok cfg cpuSecs h2
              subst hm
              subst hc
              rw [scsiIds_append, scsiIds_append, scsiIds_append, scsiIds_append,
                allRunConfSections_ids env devConfs devSecs h3]
              rfl

theorem runConfDriveIds_nodup (rc : RunConf) : (runConfDriveIds rc).Nodup := by
  unfold runConfDriveIds
  split
  · rw [List.singleton_append, List.nodup_cons]
    constructor
    · intro hmem
      have := (List.mem_range'_1.mp hmem).1
      omega
    · exact List.nodup_range' _ _
  · rw [List.nil_append]
    exact List.nodup_range' _ _

/-! ## Claim theorems -/

/-- C7: statusCode yields Stopped when the monitor socket cannot be opened,
Error when the socket opens but the handshake, the status command or the
response decoding fails, Running exactly when a successful query reports the
status string running (Stopped otherwise), and disconnects the connection
after every query that connected. -/
theorem statusCode_spec (env : MonitorEnv) :
    (env.socketOk = false → statusCode env = .stopped) ∧
    (env.socketOk = true → env.connectOk = false → statusCode env = .error) ∧
    (env.socketOk = true → env.connectOk = true → env.runOk = false →
      statusCode env = .error) ∧
    (env.socketOk = true → env.connectOk = true → env.runOk = true → env.decodeOk = false →
      statusCode env = .error) ∧
    (env.socketOk = true → env.connectOk = true → env.runOk = true → env.decodeOk = true →
      ((statusCode env = .running ↔ env.status = "running") ∧
        (env.status ≠ "running" → statusCode env = .stopped))) ∧
    (env.socketOk = true → env.connectOk = true → (statusCodeRun env).2 = true) := by
  rcases env with ⟨s, c, r, d, stat⟩
  cases s <;> cases c <;> cases r <;> cases d <;>
    by_cases hs : stat = "running" <;>
      simp [statusCode, statusCodeRun, hs]

/-- Witness for C7 at a concrete environment: a missing socket derives
Stopped. -/
theorem statusCode_spec_witness : statusCode monStopped = .stopped :=
  (statusCode_spec monStopped).1 rfl

/-- C10: IsRunning is true exactly when the derived state is neither STOPPED
nor BROKEN; a successful socket open followed by a failed handshake derives
Error, which IsRunning treats as running, so the running-state preconditions
of Start, Stop, Shutdown and Update treat such an instance as running. -/
theorem isRunning_spec (env : MonitorEnv) :
    (IsRunning env = true ↔ (State env ≠ "STOPPED" ∧ State env ≠ "BROKEN")) ∧
    (env.socketOk = true → env.connectOk = false →
      (statusCode env = .error ∧ IsRunning env = true ∧
        (∀ senv : StartEnv, senv.monitor = env → senv.moduleAlreadyLoaded = true →
          Start senv = .errored "The instance is already running" []) ∧
        (∀ senv : StopEnv, senv.monitor = env → ∀ eff,
          Stop senv false ≠ .errored "Instance is not running" eff) ∧
        (∀ senv : ShutdownEnv, senv.monitor = env → ∀ t eff,
          Shutdown senv t ≠ .errored "The instance is already stopped" eff) ∧
        (∀ uenv : UpdateEnv, uenv.monitor = env → ∀ st args u,
          (Update uenv st args u).err = some .updateWhilstRunning))) := by
  constructor
  · unfold IsRunning
    rw [Bool.and_eq_true, bne_iff_ne, bne_iff_ne]
    exact and_comm
  · intro hs hc
    have hsc : statusCode env = .error := by
      simp [statusCode, statusCodeRun, hs, hc]
    have hrun : IsRunning env = true := by
      unfold IsRunning State
      rw [hsc]
      decide
    refine ⟨hsc, hrun, ?_, ?_, ?_, ?_⟩
    · intro senv hm hl
      simp [Start, hl, hm, hrun]
    · intro senv hm eff
      unfold Stop
      rw [hm, hrun]
      simp only [Bool.not_true, Bool.false_eq_true, if_false]
      repeat' split
      all_goals simp
    · intro senv hm t eff
      unfold Shutdown
      rw [hm, hrun]
      simp only [Bool.not_true, Bool.false_eq_true, if_false]
      repeat' split
      all_goals simp
    · intro uenv hm st args u
      simp [Update, hm, hrun, mkUpdateErr]

/-- Witness for C10 at a concrete environment with a failed handshake. -/
theorem isRunning_spec_witness :
    statusCode monHandshakeFail = .error ∧ IsRunning monHandshakeFail = true := by
  have h := (isRunning_spec monHandshakeFail).2 rfl rfl
  exact ⟨h.1, h.2.1⟩

/-- C3 counterexample: Start on a running instance does fail, but the
vhost_vsock kernel module load it performed first is a host-state effect, so
the effect trace before the rejection is not empty as the claim states. -/
theorem start_side_effect_counterexample :
    Start ⟨monRunning, false, true⟩ =
      .errored "The instance is already running" [.loadKernelModule "vhost_vsock"] ∧
    ([HostEffect.loadKernelModule "vhost_vsock"] ≠ ([] : List HostEffect)) := by
  decide

/-- C3 (amended): Stop on an instance that is not running fails with an
error and no host effects; Start on a running instance fails with an error
and the only host effect possibly preceding the rejection is ensuring the
vhost_vsock kernel module is loaded, which the source performs before the
running-state check. -/
theorem stop_start_reject_spec (env : StopEnv) (senv : StartEnv) (s : Bool)
    (hstop : IsRunning env.monitor = false) (hstart : IsRunning senv.monitor = true) :
    (∃ msg, Stop env s = .errored msg []) ∧
    (senv.moduleAlreadyLoaded = true →
      Start senv = .errored "The instance is already running" []) ∧
    (senv.moduleAlreadyLoaded = false → senv.moduleLoadOk = true →
      Start senv = .errored "The instance is already running"
        [.loadKernelModule "vhost_vsock"]) ∧
    (senv.moduleAlreadyLoaded = false → senv.moduleLoadOk = false →
      Start senv = .errored "Failed to load module vhost_vsock" []) := by
  refine ⟨?_, ?_, ?_, ?_⟩
  · cases s
    · exact ⟨"Instance is not running", by simp [Stop, hstop]⟩
    · exact ⟨"Stateful stop is not supported for VMs at this time", by simp [Stop]⟩
  · intro h1
    simp [Start, h1, hstart]
  · intro h1 h2
    simp [Start, h1, h2, hstart]
  · intro h1 h2
    simp [Start, h1, h2]

/-- Witness for the amended C3 at concrete environments. -/
theorem stop_start_reject_witness :
    Stop ⟨monStopped, true, true, true, true, 0, true⟩ false =
      .errored "Instance is not running" [] ∧
    Start ⟨monRunning, true, true⟩ = .errored "The instance is already running" [] := by
  have h := stop_start_reject_spec ⟨monStopped, true, true, true, true, 0, true⟩
    ⟨monRunning, true, true⟩ false (by decide) (by decide)
  exact ⟨by decide, h.2.1 rfl⟩

/-- C2 counterexample: a graceful shutdown that succeeds under a positive
timeout returns nil immediately; none of the cleanup effects the claim
requires (device stop, PID file and monitor socket removal, unmount) are in
its effect trace. -/
theorem shutdown_cleanup_counterexample :
    Shutdown ⟨monRunning, true, true, true, true, true⟩ 10000 = .completed [.sendPowerdown] ∧
    HostEffect.cleanupDevices ∉ [HostEffect.sendPowerdown] ∧
    HostEffect.removePidFile ∉ [HostEffect.sendPowerdown] ∧
    HostEffect.removeMonitorSocket ∉ [HostEffect.sendPowerdown] ∧
    HostEffect.unmountConfigVolume ∉ [HostEffect.sendPowerdown] := by
  decide

/-- C2 (amended): Shutdown sends the graceful power-down command over the
control channel and waits for the instance to stop; on timeout it returns
the timeout error without forcing termination and without cleanup; a
successful graceful shutdown under a positive timeout returns immediately
without cleanup, and only a successful graceful shutdown with no positive
timeout stops the devices, removes the PID and control-socket files and
releases the config-volume mount. -/
theorem shutdown_spec (env : ShutdownEnv) (t : Int)
    (hrun : IsRunning env.monitor = true) (hs : env.socketOk = true)
    (hc : env.connectOk = true) (hp : env.powerdownOk = true) :
    (t > 0 → env.stopsBeforeTimeout = true → Shutdown env t = .completed [.sendPowerdown]) ∧
    (t > 0 → env.stopsBeforeTimeout = false → Shutdown env t = .timedOut [.sendPowerdown]) ∧
    (¬ t > 0 → env.eventuallyStops = true →
      Shutdown env t = .completed [.sendPowerdown, .cleanupDevices, .removePidFile,
        .removeMonitorSocket, .unmountConfigVolume]) := by
  unfold Shutdown
  rw [hrun, hs, hc, hp]
  refine ⟨?_, ?_, ?_⟩ <;> intro h1 h2 <;> simp [h1, h2]

/-- Witness for the amended C2 at a concrete environment. -/
theorem shutdown_spec_witness :
    Shutdown ⟨monRunning, true, true, true, false, true⟩ 10000 =
      .timedOut [.sendPowerdown] :=
  (shutdown_spec ⟨monRunning, true, true, true, false, true⟩ 10000 (by decide) rfl rfl rfl).2.1
    (by decide) rfl

/-- C4: VolatileSet is all-or-nothing: a key outside the volatile namespace
makes the whole call fail with no change applied; otherwise keys mapped to
the empty string are deleted from the local and expanded config and from the
persisted config, every other key is set in all three, and keys not named in
the change map are never touched. -/
theorem volatileSet_spec (dbOk : Bool) (st : VMState) (ch : Config)
    (hnd : (cfgKeys ch).Nodup) :
    ((∃ kv ∈ ch, strStarts kv.1 "volatile." = false) →
      VolatileSet dbOk st ch =
        (st, some "Only volatile keys can be modified with VolatileSet")) ∧
    ((∀ kv ∈ ch, strStarts kv.1 "volatile." = true) → dbOk = true →
      ((VolatileSet dbOk st ch).2 = none ∧
        (∀ kv ∈ ch, kv.2 = "" →
          cfgMem (VolatileSet dbOk st ch).1.localConfig kv.1 = false ∧
          cfgMem (VolatileSet dbOk st ch).1.expandedConfig kv.1 = false ∧
          cfgMem (VolatileSet dbOk st ch).1.dbConfig kv.1 = false) ∧
        (∀ kv ∈ ch, kv.2 ≠ "" →
          cfgGet (VolatileSet dbOk st ch).1.localConfig kv.1 = kv.2 ∧
          cfgGet (VolatileSet dbOk st ch).1.expandedConfig kv.1 = kv.2 ∧
          cfgGet (VolatileSet dbOk st ch).1.dbConfig kv.1 = kv.2))) ∧
    (∀ k, (∀ kv ∈ ch, kv.1 ≠ k) →
      cfgGet (VolatileSet dbOk st ch).1.localConfig k = cfgGet st.localConfig k ∧
      cfgGet (VolatileSet dbOk st ch).1.expandedConfig k = cfgGet st.expandedConfig k ∧
      cfgGet (VolatileSet dbOk st ch).1.dbConfig k = cfgGet st.dbConfig k ∧
      cfgMem (VolatileSet dbOk st ch).1.localConfig k = cfgMem st.localConfig k ∧
      cfgMem (VolatileSet dbOk st ch).1.expandedConfig k = cfgMem st.expandedConfig k ∧
      cfgMem (VolatileSet dbOk st ch).1.dbConfig k = cfgMem st.dbConfig k) := by
  refine ⟨?_, ?_, ?_⟩
  · rintro ⟨kv, hkv, hbad⟩
    rw [VolatileSet, if_pos (List.any_eq_true.mpr ⟨kv, hkv, by simp [hbad]⟩)]
  · intro hall hdb
    have hnobad : (ch.any fun kv => !(strStarts kv.1 "volatile.")) = false := by
      rw [List.any_eq_false]
      intro kv hkv
      simp [hall kv hkv]
    rw [VolatileSet, if_neg (by simp [hnobad]), if_neg (by simp [hdb])]
    refine ⟨rfl, ?_, ?_⟩
    · intro kv hkv hv
      have hmem : (kv.1, "") ∈ ch := by
        rw [← hv]
        exact hkv
      refine ⟨(cfgApplyChanges_of_mem_empty _ ch kv.1 hnd hmem).1,
        (cfgApplyChanges_of_mem_empty _ ch kv.1 hnd hmem).1,
        (cfgApplyChanges_of_mem_empty _ ch kv.1 hnd hmem).1⟩
    · intro kv hkv hv
      have hmem : (kv.1, kv.2) ∈ ch := hkv
      exact ⟨(cfgApplyChanges_of_mem_set _ ch kv.1 kv.2 hnd hv hmem).1,
        (cfgApplyChanges_of_mem_set _ ch kv.1 kv.2 hnd hv hmem).1,
        (cfgApplyChanges_of_mem_set _ ch kv.1 kv.2 hnd hv hmem).1⟩
  · intro k hk
    by_cases hbad : (ch.any fun kv => !(strStarts kv.1 "volatile.")) = true
    · rw [VolatileSet, if_pos hbad]
      exact ⟨rfl, rfl, rfl, rfl, rfl, rfl⟩
    · by_cases hdb : dbOk
      · rw [VolatileSet, if_neg (by simp [hbad]), if_neg (by simp [hdb])]
        exact ⟨cfgApplyChanges_get_of_not_key _ ch k hk, cfgApplyChanges_get_of_not_key _ ch k hk,
          cfgApplyChanges_get_of_not_key _ ch k hk, cfgApplyChanges_mem_of_not_key _ ch k hk,
          cfgApplyChanges_mem_of_not_key _ ch k hk, cfgApplyChanges_mem_of_not_key _ ch k hk⟩
      · rw [VolatileSet, if_neg (by simp [hbad]), if_pos (by simp [hdb])]
        exact ⟨rfl, rfl, rfl, rfl, rfl, rfl⟩

/-- Witness for C4 at a concrete state: clearing one volatile key deletes it
from memory and persistence, and an unrelated key is untouched. -/
theorem volatileSet_spec_witness :
    (VolatileSet true rollbackState [("volatile.eth0.hwaddr", "")]).2 = none ∧
    cfgMem (VolatileSet true rollbackState
      [("volatile.eth0.hwaddr", "")]).1.localConfig "volatile.eth0.hwaddr" = false ∧
    cfgGet (VolatileSet true rollbackState
      [("volatile.eth0.hwaddr", "")]).1.dbConfig "limits.cpu" = "1" := by
  have h := volatileSet_spec true rollbackState [("volatile.eth0.hwaddr", "")] (by decide)
  have h2 := h.2.1 (by decide) rfl
  have h3 := h.2.2 "limits.cpu" (by decide)
  refine ⟨h2.1, (h2.2.1 ("volatile.eth0.hwaddr", "") (by decide) rfl).1, ?_⟩
  rw [h3.2.2.1]
  decide

/-- C5: with userRequested set, Update fails with the reserved-key error
exactly when some key under the volatile or image namespace differs between
the supplied config and the existing local config (lookups defaulting to the
empty string, as Go map indexing does); when no such key differs the
reserved-namespace check passes and the reserved-key error cannot be
returned. -/
theorem update_reserved_keys (env : UpdateEnv) (st : VMState) (args : InstanceArgs)
    (avail : List String)
    (hrun : IsRunning env.monitor = false)
    (hvc : env.validConfig = true) (hvd : env.validDevices = true)
    (hcp : env.clusterProfiles = some avail)
    (hpl : checkProfilesLoop avail args.profiles [] = none)
    (harch : env.archValid = true)
    (ha : (cfgKeys args.config).Nodup) (hl : (cfgKeys st.localConfig).Nodup) :
    (Update env st args true).err = some .reservedKeyChanged ↔
      ¬ ∀ k, (strStarts k "volatile." = true ∨ strStarts k "image." = true) →
        cfgGet args.config k = cfgGet st.localConfig k := by
  by_cases hv : reservedKeyViolation args.config st.localConfig = true
  · have herr : (Update env st args true).err = some .reservedKeyChanged := by
      simp [Update, hrun, hvc, hvd, hcp, hpl, harch, hv, mkUpdateErr]
    rw [herr]
    apply iff_of_true rfl
    intro hall
    rw [(reservedKeyViolation_eq_false_iff args.config st.localConfig ha hl).mpr hall] at hv
    cases hv
  · have hvf : reservedKeyViolation args.config st.localConfig = false := by
      simpa using hv
    apply iff_of_false
    · simp only [Update, hrun, hvc, hvd, hcp, hpl, harch, hvf]
      simp only [Bool.false_eq_true, if_false, Bool.not_true, Bool.and_false, Bool.true_and]
      split
      · exact updateAfterExpand_err_not_reserved env st _
      · split
        · simp [mkUpdateErr]
        · exact updateAfterExpand_err_not_reserved env st _
    · intro hcon
      exact hcon ((reservedKeyViolation_eq_false_iff args.config st.localConfig ha hl).mp hvf)

/-- Witness for C5: an update that adds a volatile key is rejected with the
reserved-key error. -/
theorem update_reserved_keys_witness :
    (Update updateEnvAllOk scenarioBState reservedKeysArgs true).err =
      some .reservedKeyChanged := by
  apply (update_reserved_keys updateEnvAllOk scenarioBState reservedKeysArgs [] (by decide)
    rfl rfl rfl rfl rfl (by decide) (by decide)).mpr
  intro hall
  have h := hall "volatile.new.key" (Or.inl (by decide))
  exact absurd h (by decide)

/-- C1 counterexample: an Update that removes a nic device clears its
volatile key from the persisted config through VolatileSet; when the final
database commit then fails, the call returns an error with nothing persisted
by the final transaction, yet the persisted config has lost the volatile key,
so the database state is not unchanged. -/
theorem update_rollback_counterexample :
    (Update rollbackEnv rollbackState rollbackArgs false).err = some .dbCommitFailed ∧
    (Update rollbackEnv rollbackState rollbackArgs false).persisted = false ∧
    cfgMem rollbackState.dbConfig "volatile.eth0.hwaddr" = true ∧
    cfgMem (Update rollbackEnv rollbackState rollbackArgs false).st.dbConfig
      "volatile.eth0.hwaddr" = false := by
  decide

/-- C1 (amended): if Update returns an error and the final persist did not
succeed, the in-memory state (description, architecture, ephemeral flag,
local and expanded config and devices, profiles, expiry date) is restored
exactly, and the persisted state is unchanged except for volatile-namespace
config keys written through VolatileSet during device-diff application,
which are not rolled back. -/
theorem update_rollback (env : UpdateEnv) (st : VMState) (args : InstanceArgs) (u : Bool)
    (e : UpdateErr)
    (he : (Update env st args u).err = some e)
    (hp : (Update env st args u).persisted = false) :
    MemRestored st (Update env st args u).st ∧ DbPreserved st (Update env st args u).st := by
  rcases update_shape env st args u with ⟨e', hsh⟩ | ⟨cur, hdb, hsh⟩
  · rw [hsh]
    exact ⟨memRestored_refl st, dbPreserved_refl st⟩
  · rw [hsh] at he hp ⊢
    exact updateAfterExpand_rollback env st cur e hdb he hp

/-- Witness for the amended C1 at the rollback fixture. -/
theorem update_rollback_witness :
    MemRestored rollbackState (Update rollbackEnv rollbackState rollbackArgs false).st ∧
      DbPreserved rollbackState (Update rollbackEnv rollbackState rollbackArgs false).st :=
  update_rollback rollbackEnv rollbackState rollbackArgs false .dbCommitFailed
    (by decide) (by decide)

/-- C8: a successful Update regenerates the NVRAM store exactly when
security.secureboot is among the changed expanded-config keys; and the
scenario-B update (limits.cpu 1 to 2, stopped, no profiles) succeeds,
recomputes the expanded config, produces an empty device diff and does not
regenerate the NVRAM. -/
theorem update_nvram_spec :
    (∀ (env : UpdateEnv) (st : VMState) (args : InstanceArgs) (u : Bool),
      (Update env st args u).err = none →
        ((Update env st args u).nvramRegen = true ↔
          "security.secureboot" ∈ (Update env st args u).changedConfig)) ∧
    ((Update updateEnvAllOk scenarioBState scenarioBArgs true).err = none ∧
      (Update updateEnvAllOk scenarioBState scenarioBArgs true).diff = emptyDiff ∧
      (Update updateEnvAllOk scenarioBState scenarioBArgs true).nvramRegen = false ∧
      cfgGet (Update updateEnvAllOk scenarioBState scenarioBArgs true).st.expandedConfig
        "limits.cpu" = "2" ∧
      (Update updateEnvAllOk scenarioBState scenarioBArgs true).changedConfig =
        ["limits.cpu"]) := by
  constructor
  · intro env st args u he
    rcases update_shape env st args u with ⟨e', hsh⟩ | ⟨cur, hdb, hsh⟩
    · rw [hsh] at he
      simp [mkUpdateErr] at he
    · rw [hsh] at he ⊢
      exact updateAfterExpand_nvram env st cur he
  · exact ⟨by decide, by decide, by decide, by decide, by decide⟩

/-- Witness for C8 at the scenario-B run. -/
theorem update_nvram_spec_witness :
    (Update updateEnvAllOk scenarioBState scenarioBArgs true).nvramRegen = true ↔
      "security.secureboot" ∈
        (Update updateEnvAllOk scenarioBState scenarioBArgs true).changedConfig :=
  update_nvram_spec.1 updateEnvAllOk scenarioBState scenarioBArgs true (by decide)

/-- C6 counterexample: two run configs each contributing one supplementary
drive both receive scsi-id 1, because the drive index restarts per run
config; the generated file then contains two drive sections with the same
scsi-id, against the claim. -/
theorem generate_scsi_counterexample :
    isOkGen (generateQemuConfigFile genEnvOk [] 3 "q35" "" [genRunConfA, genRunConfB]) = true ∧
    scsiIdsOf (generateQemuConfigFile genEnvOk [] 3 "q35" "" [genRunConfA, genRunConfB]) =
      [0, 1, 1] ∧
    ¬ ([0, 1, 1] : List Nat).Nodup := by
  decide

/-- C6 (amended): in a successfully generated machine description the drive
scsi-ids are, run config by run config, the reserved index 0 for the root
drive (emitted before the mounts of its own run config) followed by the
incrementing indices 1 .. n for its supplementary drives; the index restarts
for every run config, so ids are distinct within one run config but may
repeat across run configs. -/
theorem generate_drive_ids (env : GenEnv) (cfg : Config) (cid : Int) (qt ac : String)
    (devConfs : List RunConf) (secs : List QemuSection)
    (h : generateQemuConfigFile env cfg cid qt ac devConfs = .ok secs) :
    scsiIds secs = (devConfs.map runConfDriveIds).flatten ∧
      ∀ rc ∈ devConfs, (runConfDriveIds rc).Nodup := by
  refine ⟨generateQemuConfigFile_ids env cfg cid qt ac devConfs secs h, ?_⟩
  intro rc _
  exact runConfDriveIds_nodup rc

/-- Witness for the amended C6 at the concrete two-run-config input. -/
theorem generate_drive_ids_witness :
    scsiIdsOf (generateQemuConfigFile genEnvOk [] 3 "q35" "" [genRunConfA, genRunConfB]) =
      ([genRunConfA, genRunConfB].map runConfDriveIds).flatten := by
  have h := generate_drive_ids genEnvOk [] 3 "q35" "" [genRunConfA, genRunConfB] _ rfl
  exact h.1

/-- C9 counterexample: a registration filtering only on a matching product
id (vendor wildcard) receives a matching add event, but the external device
setup fails, so the handler returns nil run configuration with an error, not
a non-nil run configuration as the claim states. -/
theorem hotplug_handler_counterexample :
    unixHotplugIsOurDevice hotplugCfgProduct hotplugAddEvent = true ∧
    hotplugAddEvent.action = "add" ∧
    unixHotplugHandler hotplugEnvSetupFails hotplugCfgProduct hotplugAddEvent =
      .error "setup failed" := by
  decide

/-- C9 (amended): a handler matches exactly when each of the vendorid and
productid filters is empty or equal to the corresponding event field; a
non-matching event yields nil run configuration and nil error; a matching
add event yields a non-nil run configuration provided the device-node setup
succeeds, and propagates the setup error (with nil run configuration)
otherwise. -/
theorem unixHotplugHandler_spec (env : HotplugEnv) (cfg : Config) (e : UnixHotplugEvent) :
    (unixHotplugIsOurDevice cfg e = true ↔
      ((cfgGet cfg "vendorid" = "" ∨ cfgGet cfg "vendorid" = e.vendor) ∧
        (cfgGet cfg "productid" = "" ∨ cfgGet cfg "productid" = e.product))) ∧
    (unixHotplugIsOurDevice cfg e = false → unixHotplugHandler env cfg e = .ok none) ∧
    (unixHotplugIsOurDevice cfg e = true → e.action = "add" →
      ∀ ms, env.setupCharNum = .ok ms →
        unixHotplugHandler env cfg e = .ok (some ⟨ms, 0, [e.ueventParts]⟩)) ∧
    (unixHotplugIsOurDevice cfg e = true → e.action = "add" →
      ∀ msg, env.setupCharNum = .error msg →
        unixHotplugHandler env cfg e = .error msg) := by
  refine ⟨?_, ?_, ?_, ?_⟩
  · unfold unixHotplugIsOurDevice
    by_cases h1 : cfgGet cfg "vendorid" = "" <;>
      by_cases h2 : cfgGet cfg "vendorid" = e.vendor <;>
        by_cases h3 : cfgGet cfg "productid" = "" <;>
          by_cases h4 : cfgGet cfg "productid" = e.product <;>
            simp [h1, h2, h3, h4, bne_iff_ne]
  · intro hno
    unfold unixHotplugHandler
    rw [if_pos (by simp [hno])]
  · intro hyes hadd ms hms
    unfold unixHotplugHandler
    rw [if_neg (by simp [hyes]), if_pos (by simp [hadd]), hms]
  · intro hyes hadd msg hmsg
    unfold unixHotplugHandler
    rw [if_neg (by simp [hyes]), if_pos (by simp [hadd]), hmsg]

/-- Witness for the amended C9: a matching add event with successful setup
yields the non-nil run configuration carrying the setup mounts and the
uevent fragment. -/
theorem unixHotplugHandler_spec_witness :
    unixHotplugHandler hotplugEnvSetupOk hotplugCfgProduct hotplugAddEvent =
      .ok (some ⟨["m1"], 0, [["a"]]⟩) :=
  (unixHotplugHandler_spec hotplugEnvSetupOk hotplugCfgProduct hotplugAddEvent).2.2.1
    (by decide) (by decide) ["m1"] rfl

end LxdVm
